import Mathlib

/-! Verification of the TideScore scoring engine (`src/scoring_algorithm.py`).

The engine works on a Python dict mapping field names to values (strings,
numbers, or missing).  We model Python values by `PyVal` (numbers as `ℚ`,
which covers the ints and floats the engine handles), dicts by association
lists with first-match lookup, and Python's fallible coercions `float(...)` /
`int(...)` by `Option`-valued functions: a `none` result models a raised
`ValueError`/`TypeError`.  Every scoring function below is a line-by-line
translation of the corresponding Python function.
-/

namespace TideScore

/-- A Python runtime value as used by the scoring engine: `None`, a string,
or a number (`int`/`float`, modelled as `ℚ`). -/
inductive PyVal where
  | vNone : PyVal
  | vStr : String → PyVal
  | vNum : ℚ → PyVal
deriving DecidableEq, Repr

/-- A Python dict (the `verified_data` mapping): association list with
first-match lookup; updating a key is modelled by `cons`, which shadows. -/
abbrev Record : Type := List (String × PyVal)

/-- Dict lookup, `data[k]` present or not: first matching key wins. -/
def Record.get? : Record → String → Option PyVal
  | [], _ => Option.none
  | (k, v) :: rest, key => if k = key then some v else Record.get? rest key

/-- Python `data.get(key, default)`. -/
def Record.getD (d : Record) (key : String) (dflt : PyVal) : PyVal :=
  (Record.get? d key).getD dflt

/-- Python `data.get(key)` (default `None`). -/
def Record.get0 (d : Record) (key : String) : PyVal :=
  Record.getD d key PyVal.vNone

/-- Python truthiness of a value (`bool(v)`). -/
def pyTruthy : PyVal → Bool
  | PyVal.vNone => false
  | PyVal.vStr s => !(s == "")
  | PyVal.vNum q => !(q == 0)

/-- Python `a or b`. -/
def pyOr (a b : PyVal) : PyVal := if pyTruthy a then a else b

/-- Python `v == "lit"` for a string literal: true only for an equal string. -/
def pyEq (v : PyVal) (s : String) : Bool :=
  match v with
  | PyVal.vStr t => t == s
  | _ => false

/-- Numeric value of a non-empty digit string. -/
def digitsVal (cs : List Char) : ℕ :=
  cs.foldl (fun acc c => 10 * acc + (c.toNat - 48)) 0

/-- Models Python `float(s)` on plain decimal literals: optional sign, then
digits with an optional fractional part (`"12"`, `"-3.5"`, `"7."`, `".25"`).
Any other string fails (`ValueError`), modelled as `none`. -/
def pyParseFloat (s : String) : Option ℚ :=
  let cs := s.toList
  let signed : ℚ × List Char :=
    match cs with
    | '-' :: rest => (-1, rest)
    | '+' :: rest => (1, rest)
    | _ => (1, cs)
  let intPart := signed.2.takeWhile Char.isDigit
  let rest := signed.2.dropWhile Char.isDigit
  match rest with
  | [] =>
      if intPart.isEmpty then Option.none
      else some (signed.1 * (digitsVal intPart : ℚ))
  | '.' :: fracPart =>
      if fracPart.all Char.isDigit && !(intPart.isEmpty && fracPart.isEmpty) then
        some (signed.1 * ((digitsVal intPart : ℚ)
          + (digitsVal fracPart : ℚ) / (10 : ℚ) ^ fracPart.length))
      else Option.none
  | _ => Option.none

/-- Models Python `int(s)` on a string: optional sign then digits only
(`int("3.5")` raises). -/
def pyParseInt (s : String) : Option ℤ :=
  let cs := s.toList
  let signed : ℤ × List Char :=
    match cs with
    | '-' :: rest => (-1, rest)
    | '+' :: rest => (1, rest)
    | _ => (1, cs)
  if signed.2.isEmpty then Option.none
  else if signed.2.all Char.isDigit then some (signed.1 * (digitsVal signed.2 : ℤ))
  else Option.none

/-- Python `float(v)`: identity on numbers, literal parsing on strings,
`TypeError` (`none`) on `None`. -/
def pyFloat : PyVal → Option ℚ
  | PyVal.vNum q => some q
  | PyVal.vStr s => pyParseFloat s
  | PyVal.vNone => Option.none

/-- Truncation toward zero, as Python `int()` applied to a float. -/
def ratTrunc (q : ℚ) : ℤ := if 0 ≤ q then ⌊q⌋ else ⌈q⌉

/-- Python `int(v)`: truncation on numbers, integer-literal parsing on
strings, `TypeError` (`none`) on `None`. -/
def pyInt : PyVal → Option ℤ
  | PyVal.vNum q => some (ratTrunc q)
  | PyVal.vStr s => pyParseInt s
  | PyVal.vNone => Option.none

/-- The idiom `float(data.get(key, 0) or 0)` from the source. -/
def getFloat0 (d : Record) (key : String) : Option ℚ :=
  pyFloat (pyOr (Record.getD d key (PyVal.vNum 0)) (PyVal.vNum 0))

/-- The idiom `int(data.get(key, 0) or 0)` from the source. -/
def getInt0 (d : Record) (key : String) : Option ℤ :=
  pyInt (pyOr (Record.getD d key (PyVal.vNum 0)) (PyVal.vNum 0))

/-- Source `v in ['Unverified', 'Fraudulent']`. -/
def isGatedStatus (v : PyVal) : Bool :=
  pyEq v "Unverified" || pyEq v "Fraudulent"

/-- The gate test used by the sub-score calculators:
`data.get(key) in ['Unverified', 'Fraudulent']` (missing key defaults to
`None`, which is not gated). -/
def subGate (d : Record) (key : String) : Bool :=
  isGatedStatus (Record.get0 d key)

/-- The gate test used by `calculate_penalties`:
`data.get(key, 'Unverified') in ['Unverified', 'Fraudulent']` (missing key
defaults to `'Unverified'`, which IS gated). -/
def penGate (d : Record) (key : String) : Bool :=
  isGatedStatus (Record.getD d key (PyVal.vStr "Unverified"))

/-- Source `data.get('g1_verified') == 'Yes'`. -/
def g1v (d : Record) : Bool := pyEq (Record.get0 d "g1_verified") "Yes"

/-- Source `data.get('g2_verified') == 'Yes'`. -/
def g2v (d : Record) : Bool := pyEq (Record.get0 d "g2_verified") "Yes"

/-- Source `v in ['Family Member', 'Religious Leader']`. -/
def isSpecialRel (v : PyVal) : Bool :=
  pyEq v "Family Member" || pyEq v "Religious Leader"

/-- Source `calculate_personal_score` (scoring_algorithm.py lines 49-71). -/
def calculate_personal_score (d : Record) : ℤ :=
  let score : ℤ := 0
  let score :=
    if pyEq (Record.get0 d "employment_verified") "Yes" then
      let employment_status := Record.getD d "employment_status" (PyVal.vStr "")
      if pyEq employment_status "Employed (Full-time)" then score + 20
      else if pyEq employment_status "Self-Employed (Business Owner)" then score + 15
      else if pyEq employment_status "Employed (Part-time)" then score + 10
      else if pyEq employment_status "Student" then score + 5
      else score
    else score
  let score := if pyEq (Record.get0 d "residency_verified") "Yes" then score + 10 else score
  let education_level := Record.getD d "education_level" (PyVal.vStr "")
  let score :=
    if pyEq education_level "HND/B.Sc" || pyEq education_level "Masters"
        || pyEq education_level "PhD" then score + 10
    else if pyEq education_level "OND/NCE" || pyEq education_level "Secondary School" then
      score + 5
    else score
  score

/-- The ungated body of `calculate_air_score` (lines 78-96): the tier bonus
on the three-month total plus the all-months-positive consistency bonus. -/
def air_score_body (d : Record) : Option ℤ := do
  let m1 ← getFloat0 d "airtime_spend_m1"
  let m2 ← getFloat0 d "airtime_spend_m2"
  let m3 ← getFloat0 d "airtime_spend_m3"
  let total_spend := m1 + m2 + m3
  let score : ℤ :=
    if 15000 ≤ total_spend then 100
    else if 10000 ≤ total_spend then 75
    else if 5000 ≤ total_spend then 50
    else if 2000 ≤ total_spend then 20
    else 0
  let score := if 0 < m1 ∧ 0 < m2 ∧ 0 < m3 then score + 20 else score
  pure score

/-- Source `calculate_air_score` (lines 74-96). -/
def calculate_air_score (d : Record) : Option ℤ :=
  if subGate d "airtime_status" then pure 0 else air_score_body d

/-- The ungated body of `calculate_bill_score` (lines 103-124). -/
def bill_score_body (d : Record) : ℤ :=
  let verified_bills_count : ℤ :=
    (if pyEq (Record.get0 d "electricity_verified") "Yes" then 1 else 0)
    + (if pyEq (Record.get0 d "dstv_verified") "Yes" then 1 else 0)
    + (if pyEq (Record.get0 d "internet_verified") "Yes" then 1 else 0)
    + (if pyEq (Record.get0 d "water_verified") "Yes" then 1 else 0)
    + (if pyEq (Record.get0 d "rent_verified") "Yes" then 1 else 0)
  let score : ℤ :=
    if 4 ≤ verified_bills_count then 150
    else if 3 ≤ verified_bills_count then 100
    else if 2 ≤ verified_bills_count then 60
    else if 1 ≤ verified_bills_count then 30
    else 0
  let score :=
    if 2 ≤ verified_bills_count ∧ pyEq (Record.get0 d "bill_status") "Verified" then
      score + 20
    else score
  score

/-- Source `calculate_bill_score` (lines 99-124); pure, no numeric coercion. -/
def calculate_bill_score (d : Record) : ℤ :=
  if subGate d "bill_status" then 0 else bill_score_body d

/-- The ungated body of `calculate_p2p_score` (lines 131-148). -/
def p2p_score_body (d : Record) : Option ℤ := do
  let num_unique_verified_p2p ← getInt0 d "num_unique_verified_p2p"
  let score : ℤ :=
    if 5 ≤ num_unique_verified_p2p then 80
    else if 3 ≤ num_unique_verified_p2p then 50
    else if 1 ≤ num_unique_verified_p2p then 20
    else 0
  let p2p_total_value ← getFloat0 d "p2p_total_value"
  let score := if 50000 ≤ p2p_total_value then score + 20 else score
  let score :=
    if pyEq (Record.get0 d "p2p_consistent_across_months") "Yes" then score + 10 else score
  pure score

/-- Source `calculate_p2p_score` (lines 127-148). -/
def calculate_p2p_score (d : Record) : Option ℤ :=
  if subGate d "p2p_status" then pure 0 else p2p_score_body d

/-- The ungated body of `calculate_bank_score` (lines 155-176). -/
def bank_score_body (d : Record) : Option ℤ := do
  let consistent_deposits_months ← getInt0 d "consistent_deposits_months"
  let score : ℤ :=
    if 5 ≤ consistent_deposits_months then 100
    else if 3 ≤ consistent_deposits_months then 60
    else if 1 ≤ consistent_deposits_months then 20
    else 0
  let avg_monthly_balance ← getFloat0 d "avg_monthly_balance"
  let score :=
    if 10000 ≤ avg_monthly_balance then score + 50
    else if 5000 ≤ avg_monthly_balance then score + 30
    else if 1000 ≤ avg_monthly_balance then score + 10
    else score
  let score := if pyEq (Record.get0 d "no_negative_flags") "Yes" then score + 30 else score
  pure score

/-- Source `calculate_bank_score` (lines 151-176). -/
def calculate_bank_score (d : Record) : Option ℤ :=
  if subGate d "bank_status" then pure 0 else bank_score_body d

/-- Source `calculate_guarantor_score` (lines 179-195). -/
def calculate_guarantor_score (d : Record) : ℤ :=
  let score : ℤ := 0
  let score :=
    if g1v d && g2v d then score + 70
    else if g1v d || g2v d then score + 30
    else score
  let score :=
    if g1v d && isSpecialRel (Record.get0 d "g1_relationship") then score + 10 else score
  let score :=
    if g2v d && isSpecialRel (Record.get0 d "g2_relationship") then score + 10 else score
  score

/-- Source `calculate_penalties` (lines 198-218): statuses default to
`'Unverified'` when missing; the five deductions are applied in source
order. -/
def calculate_penalties (d : Record) : ℤ :=
  let penalty : ℤ := 0
  let penalty := if penGate d "airtime_status" then penalty - 10 else penalty
  let penalty := if penGate d "bill_status" then penalty - 15 else penalty
  let penalty := if penGate d "p2p_status" then penalty - 20 else penalty
  let penalty := if !g1v d && !g2v d then penalty - 25 else penalty
  let penalty := if penGate d "bank_status" then penalty - 30 else penalty
  penalty

/-- Python 3 `round` on the rationals produced here: round half to even.
(The scaled score is `round(final_raw / 740 * 850)` with `final_raw` an
integer multiple of 5, for which the double-precision evaluation agrees
with exact rational rounding.) -/
def pyRound (q : ℚ) : ℤ :=
  let f := ⌊q⌋
  if q - (f : ℚ) < 1 / 2 then f
  else if 1 / 2 < q - (f : ℚ) then f + 1
  else if f % 2 = 0 then f else f + 1

/-- The risk-tier chain of lines 237-244. -/
def risk_level_of (s : ℤ) : String :=
  if 650 ≤ s then "Low"
  else if 450 ≤ s then "Medium"
  else if 250 ≤ s then "High"
  else "Very High"

/-- The dict returned by `calculate_tidescore` (lines 246-260); the
`breakdown` entries become the last nine fields. -/
structure ScoreReport where
  scaled_score : ℤ
  risk_level : String
  personal : ℤ
  airtime : ℤ
  bill : ℤ
  p2p : ℤ
  bank : ℤ
  guarantors : ℤ
  total_penalties : ℤ
  final_raw_score : ℤ
  overall_raw_pre_penalties : ℤ
deriving DecidableEq, Repr

def max_possible_raw_score : ℤ := 740

/-- Source `calculate_tidescore` (lines 41-260).  A `none` result models an
uncaught exception escaping the call. -/
def calculate_tidescore (d : Record) : Option ScoreReport := do
  let personal_score := calculate_personal_score d
  let air_score ← calculate_air_score d
  let bill_score := calculate_bill_score d
  let p2p_score ← calculate_p2p_score d
  let bank_score ← calculate_bank_score d
  let guarantor_score := calculate_guarantor_score d
  let overall_raw_score_pre_penalties :=
    personal_score + air_score + bill_score + p2p_score + bank_score + guarantor_score
  let total_penalties := calculate_penalties d
  let final_raw_score := max 0 (overall_raw_score_pre_penalties + total_penalties)
  let scaled_score :=
    pyRound ((final_raw_score : ℚ) / (max_possible_raw_score : ℚ) * 850)
  pure ⟨scaled_score, risk_level_of scaled_score, personal_score, air_score,
    bill_score, p2p_score, bank_score, guarantor_score, total_penalties,
    final_raw_score, overall_raw_score_pre_penalties⟩

/-! The suggestion generator (`get_score_suggestions`, lines 1-37) -/

def msg_personal : String :=
  "✅ Improve your employment verification - provide better employment proof documents"

def msg_airtime : String :=
  "📱 Increase your airtime spending consistency across all 3 months"

def msg_bill : String :=
  "💡 Add more verified bill payments (electricity, DSTV, internet, etc.)"

def msg_bank : String :=
  "🏦 Maintain higher average bank balance and consistent deposits"

def msg_guarantors : String :=
  "👥 Add more reliable guarantors with strong relationships"

def msg_very_high_risk : String :=
  "🚨 Your score is very high risk. Focus on improving all areas above."

def msg_medium_risk : String :=
  "⚠️  Medium risk score. Improve multiple areas for better rates."

def msg_good : String :=
  "👍 Good score! Minor improvements can get you to excellent range."

def msg_excellent : String :=
  "🎉 Excellent score! You qualify for our best rates!"

/-- Source `get_score_suggestions` (lines 1-37): sequential appends of the five
category warnings and one overall message.  It reads only the five category
breakdown entries and the scaled score of the report. -/
def get_score_suggestions (r : ScoreReport) : List String :=
  let suggestions : List String := []
  let suggestions := if r.personal < 25 then suggestions ++ [msg_personal] else suggestions
  let suggestions := if r.airtime < 60 then suggestions ++ [msg_airtime] else suggestions
  let suggestions := if r.bill < 85 then suggestions ++ [msg_bill] else suggestions
  let suggestions := if r.bank < 100 then suggestions ++ [msg_bank] else suggestions
  let suggestions :=
    if r.guarantors < 45 then suggestions ++ [msg_guarantors] else suggestions
  let suggestions :=
    if r.scaled_score < 250 then suggestions ++ [msg_very_high_risk]
    else if r.scaled_score < 450 then suggestions ++ [msg_medium_risk]
    else if r.scaled_score < 650 then suggestions ++ [msg_good]
    else suggestions ++ [msg_excellent]
  suggestions

end TideScore

namespace TideScore

/-! Claims C1, C3, C4, C6, C8, C10 -/

/-- A record whose numeric field holds a non-numeric, truthy string:
`{'airtime_spend_m1': 'abc'}`. -/
def malformedSpendRecord : Record := [("airtime_spend_m1", PyVal.vStr "abc")]

/-- C1 (code_bug evidence).  The claim says `calculate_tidescore` never
raises, even when a numeric field holds a non-numeric value.  The code
computes `float(data.get('airtime_spend_m1', 0) or 0)`; a truthy non-numeric
string reaches `float` and raises `ValueError`.  Evaluated at the failing
input, the embedded engine propagates the failure (`none`) instead of
returning a ScoreReport. -/
theorem C1_nonnumeric_field_raises :
    calculate_tidescore malformedSpendRecord = Option.none := by decide

/-- C3: for each gateable category, if its status field (as read by the
sub-score calculator, `data.get(status_key)`) is `'Unverified'` or
`'Fraudulent'`, that category's sub-score is exactly 0, regardless of every
other field of the record. -/
theorem C3_gating_correctness (d : Record) :
    ((Record.get0 d "airtime_status" = PyVal.vStr "Unverified" ∨
        Record.get0 d "airtime_status" = PyVal.vStr "Fraudulent") →
      calculate_air_score d = some 0) ∧
    ((Record.get0 d "bill_status" = PyVal.vStr "Unverified" ∨
        Record.get0 d "bill_status" = PyVal.vStr "Fraudulent") →
      calculate_bill_score d = 0) ∧
    ((Record.get0 d "p2p_status" = PyVal.vStr "Unverified" ∨
        Record.get0 d "p2p_status" = PyVal.vStr "Fraudulent") →
      calculate_p2p_score d = some 0) ∧
    ((Record.get0 d "bank_status" = PyVal.vStr "Unverified" ∨
        Record.get0 d "bank_status" = PyVal.vStr "Fraudulent") →
      calculate_bank_score d = some 0) := by
  refine ⟨fun h => ?_, fun h => ?_, fun h => ?_, fun h => ?_⟩ <;>
    [ (have hg : subGate d "airtime_status" = true := by
        unfold subGate; rcases h with h | h <;> rw [h] <;> decide);
      (have hg : subGate d "bill_status" = true := by
        unfold subGate; rcases h with h | h <;> rw [h] <;> decide);
      (have hg : subGate d "p2p_status" = true := by
        unfold subGate; rcases h with h | h <;> rw [h] <;> decide);
      (have hg : subGate d "bank_status" = true := by
        unfold subGate; rcases h with h | h <;> rw [h] <;> decide)] <;>
    simp [calculate_air_score, calculate_bill_score, calculate_p2p_score,
      calculate_bank_score, hg]

/-- A record with every gateable status bad and rich other data in each
category (exercising "regardless of every other field value"). -/
def allGatedRecord : Record :=
  [("airtime_status", PyVal.vStr "Unverified"),
   ("airtime_spend_m1", PyVal.vNum 999999), ("airtime_spend_m2", PyVal.vNum 999999),
   ("airtime_spend_m3", PyVal.vNum 999999),
   ("bill_status", PyVal.vStr "Fraudulent"),
   ("electricity_verified", PyVal.vStr "Yes"), ("dstv_verified", PyVal.vStr "Yes"),
   ("internet_verified", PyVal.vStr "Yes"), ("water_verified", PyVal.vStr "Yes"),
   ("rent_verified", PyVal.vStr "Yes"),
   ("p2p_status", PyVal.vStr "Unverified"),
   ("num_unique_verified_p2p", PyVal.vNum 9), ("p2p_total_value", PyVal.vNum 999999),
   ("p2p_consistent_across_months", PyVal.vStr "Yes"),
   ("bank_status", PyVal.vStr "Fraudulent"),
   ("consistent_deposits_months", PyVal.vNum 9),
   ("avg_monthly_balance", PyVal.vNum 999999),
   ("no_negative_flags", PyVal.vStr "Yes")]

theorem C3_gating_correctness_witness :
    calculate_air_score allGatedRecord = some 0 ∧
    calculate_bill_score allGatedRecord = 0 ∧
    calculate_p2p_score allGatedRecord = some 0 ∧
    calculate_bank_score allGatedRecord = some 0 :=
  ⟨(C3_gating_correctness allGatedRecord).1 (Or.inl (by decide)),
   (C3_gating_correctness allGatedRecord).2.1 (Or.inr (by decide)),
   (C3_gating_correctness allGatedRecord).2.2.1 (Or.inl (by decide)),
   (C3_gating_correctness allGatedRecord).2.2.2 (Or.inr (by decide))⟩

/-- Full evaluation of the engine on the empty mapping. -/
lemma empty_record_eval :
    calculate_tidescore ([] : Record) =
      some ⟨0, "Very High", 0, 0, 0, 0, 0, 0, -100, 0, 0⟩ := by
  have hair : calculate_air_score ([] : Record) = some 0 := by
    norm_num [calculate_air_score, air_score_body, subGate, Record.get0, Record.getD,
      Record.get?, getFloat0, pyFloat, pyOr, pyTruthy, isGatedStatus, pyEq]
  have hp2p : calculate_p2p_score ([] : Record) = some 0 := by
    norm_num [calculate_p2p_score, p2p_score_body, subGate, Record.get0, Record.getD,
      Record.get?, getFloat0, getInt0, pyFloat, pyInt, ratTrunc, pyOr, pyTruthy,
      isGatedStatus, pyEq]
  have hbank : calculate_bank_score ([] : Record) = some 0 := by
    norm_num [calculate_bank_score, bank_score_body, subGate, Record.get0, Record.getD,
      Record.get?, getFloat0, getInt0, pyFloat, pyInt, ratTrunc, pyOr, pyTruthy,
      isGatedStatus, pyEq]
  have hper : calculate_personal_score ([] : Record) = 0 := by decide
  have hbill : calculate_bill_score ([] : Record) = 0 := by decide
  have hguar : calculate_guarantor_score ([] : Record) = 0 := by decide
  have hpen : calculate_penalties ([] : Record) = -100 := by decide
  simp [calculate_tidescore, hair, hp2p, hbank, hper, hbill, hguar, hpen,
    risk_level_of, pyRound, max_possible_raw_score]

/-- C4: on the empty mapping, the engine returns pre-penalty raw score 0,
total penalties −100, final raw score clamped to 0, scaled score 0, and risk
level "Very High". -/
theorem C4_empty_record :
    calculate_tidescore ([] : Record) =
      some ⟨0, "Very High", 0, 0, 0, 0, 0, 0, -100, 0, 0⟩ :=
  empty_record_eval

/-- C6: the penalty total is the sum of exactly five independent negative
terms (−10 airtime, −15 bill, −20 p2p, −30 bank, and −25 iff both guarantors
are unverified); with the four gateable categories ungated and both
guarantors verified it is 0. -/
theorem C6_penalty_terms (d : Record) :
    (calculate_penalties d =
      (if penGate d "airtime_status" then -10 else 0)
      + (if penGate d "bill_status" then -15 else 0)
      + (if penGate d "p2p_status" then -20 else 0)
      + (if penGate d "bank_status" then -30 else 0)
      + (if !g1v d && !g2v d then -25 else 0)) ∧
    (penGate d "airtime_status" = false → penGate d "bill_status" = false →
      penGate d "p2p_status" = false → penGate d "bank_status" = false →
      g1v d = true → g2v d = true → calculate_penalties d = 0) := by
  constructor
  · unfold calculate_penalties
    split_ifs <;> dsimp only <;> omega
  · intro h1 h2 h3 h4 h5 h6
    simp [calculate_penalties, h1, h2, h3, h4, h5, h6]

/-- A record with all four statuses verified and both guarantors verified. -/
def allVerifiedRecord : Record :=
  [("airtime_status", PyVal.vStr "Verified"), ("bill_status", PyVal.vStr "Verified"),
   ("p2p_status", PyVal.vStr "Verified"), ("bank_status", PyVal.vStr "Verified"),
   ("g1_verified", PyVal.vStr "Yes"), ("g2_verified", PyVal.vStr "Yes")]

theorem C6_penalty_terms_witness :
    calculate_penalties allVerifiedRecord = 0 :=
  (C6_penalty_terms allVerifiedRecord).2 (by decide) (by decide) (by decide)
    (by decide) (by decide) (by decide)

/-- Both guarantors verified, both with bonus relationships. -/
def bothGuarantorsRecord : Record :=
  [("g1_verified", PyVal.vStr "Yes"), ("g2_verified", PyVal.vStr "Yes"),
   ("g1_relationship", PyVal.vStr "Family Member"),
   ("g2_relationship", PyVal.vStr "Religious Leader")]

/-- Only g1 verified, with a bonus relationship: the +10 stacks with the
single-guarantor base of 30. -/
def oneGuarantorRecord : Record :=
  [("g1_verified", PyVal.vStr "Yes"),
   ("g1_relationship", PyVal.vStr "Family Member"),
   ("g2_relationship", PyVal.vStr "Family Member")]

/-- C8: the guarantor sub-score is a base of 70 (both verified), 30
(exactly one), or 0 (none), plus an independent +10 per verified guarantor
with relationship Family Member or Religious Leader; it never exceeds 90,
the maximum 90 is attained, and the +10 stacks with the base when only one
guarantor is verified.  The formula reads only the four guarantor fields, so
the category is never gated by any status flag. -/
theorem C8_guarantor_score (d : Record) :
    (calculate_guarantor_score d =
      (if g1v d && g2v d then 70
       else if g1v d || g2v d then 30 else (0 : ℤ))
      + (if g1v d && isSpecialRel (Record.get0 d "g1_relationship") then 10 else 0)
      + (if g2v d && isSpecialRel (Record.get0 d "g2_relationship") then 10 else 0)) ∧
    calculate_guarantor_score d ≤ 90 ∧
    calculate_guarantor_score bothGuarantorsRecord = 90 ∧
    calculate_guarantor_score oneGuarantorRecord = 40 := by
  refine ⟨?_, ?_, by decide, by decide⟩ <;>
    · unfold calculate_guarantor_score
      split_ifs <;> dsimp only <;> omega

/-- C10: when a gateable category's status key is entirely absent, the
sub-score calculator is NOT gated (its gate reads `data.get(key)`, and the
resulting `None` is not in `['Unverified', 'Fraudulent']`, so the ungated
body runs), while the penalty calculator's gate (which defaults the missing
key to `'Unverified'`) still fires. -/
theorem C10_absent_status_divergence (d : Record) :
    (Record.get? d "airtime_status" = Option.none →
      calculate_air_score d = air_score_body d ∧ penGate d "airtime_status" = true) ∧
    (Record.get? d "bill_status" = Option.none →
      calculate_bill_score d = bill_score_body d ∧ penGate d "bill_status" = true) ∧
    (Record.get? d "p2p_status" = Option.none →
      calculate_p2p_score d = p2p_score_body d ∧ penGate d "p2p_status" = true) ∧
    (Record.get? d "bank_status" = Option.none →
      calculate_bank_score d = bank_score_body d ∧ penGate d "bank_status" = true) := by
  refine ⟨fun h => ⟨?_, ?_⟩, fun h => ⟨?_, ?_⟩, fun h => ⟨?_, ?_⟩, fun h => ⟨?_, ?_⟩⟩
  · simp [calculate_air_score, subGate, Record.get0, Record.getD, h, isGatedStatus, pyEq]
  · simp [penGate, Record.getD, h, isGatedStatus, pyEq]
  · simp [calculate_bill_score, subGate, Record.get0, Record.getD, h, isGatedStatus, pyEq]
  · simp [penGate, Record.getD, h, isGatedStatus, pyEq]
  · simp [calculate_p2p_score, subGate, Record.get0, Record.getD, h, isGatedStatus, pyEq]
  · simp [penGate, Record.getD, h, isGatedStatus, pyEq]
  · simp [calculate_bank_score, subGate, Record.get0, Record.getD, h, isGatedStatus, pyEq]
  · simp [penGate, Record.getD, h, isGatedStatus, pyEq]

/-- Positive airtime spends but no status keys at all: the airtime sub-score
earns 50 + 20 points while the penalty total is the full −100. -/
def noStatusRecord : Record :=
  [("airtime_spend_m1", PyVal.vNum 2000), ("airtime_spend_m2", PyVal.vNum 2000),
   ("airtime_spend_m3", PyVal.vNum 2000)]

theorem C10_absent_status_divergence_witness :
    (calculate_air_score noStatusRecord = air_score_body noStatusRecord ∧
      penGate noStatusRecord "airtime_status" = true) ∧
    calculate_air_score noStatusRecord = some 70 ∧
    calculate_penalties noStatusRecord = -100 :=
  ⟨(C10_absent_status_divergence noStatusRecord).1 (by decide),
   by
    simp only [calculate_air_score, air_score_body, subGate, Record.get0, Record.getD,
      Record.get?, getFloat0, pyFloat, pyOr, pyTruthy, isGatedStatus, pyEq,
      noStatusRecord, String.reduceEq, reduceIte, Option.getD_some, Option.getD_none,
      Bool.or_self, Bool.false_eq_true, if_false, if_true]
    norm_num,
   by decide⟩

/-! Structure of a successful `calculate_tidescore` call -/

/-- Inversion: a returned report's fields are exactly the sub-scores, the
penalty total, the clamped raw score, the scaled score, and the derived risk
level of the engine pipeline. -/
lemma tidescore_inv (d : Record) (r : ScoreReport) (h : calculate_tidescore d = some r) :
    calculate_air_score d = some r.airtime ∧
    calculate_p2p_score d = some r.p2p ∧
    calculate_bank_score d = some r.bank ∧
    r.personal = calculate_personal_score d ∧
    r.bill = calculate_bill_score d ∧
    r.guarantors = calculate_guarantor_score d ∧
    r.total_penalties = calculate_penalties d ∧
    r.overall_raw_pre_penalties =
      r.personal + r.airtime + r.bill + r.p2p + r.bank + r.guarantors ∧
    r.final_raw_score = max 0 (r.overall_raw_pre_penalties + r.total_penalties) ∧
    r.scaled_score =
      pyRound ((r.final_raw_score : ℚ) / (max_possible_raw_score : ℚ) * 850) ∧
    r.risk_level = risk_level_of r.scaled_score := by
  cases ha : calculate_air_score d with
  | none => rw [calculate_tidescore] at h; simp [ha] at h
  | some a =>
    cases hp : calculate_p2p_score d with
    | none => rw [calculate_tidescore] at h; simp [ha, hp] at h
    | some p =>
      cases hb : calculate_bank_score d with
      | none => rw [calculate_tidescore] at h; simp [ha, hp, hb] at h
      | some b =>
        rw [calculate_tidescore] at h
        simp only [ha, hp, hb, Option.bind_eq_bind, Option.some_bind, Option.pure_def,
          Option.some.injEq] at h
        subst h
        simp

/-! Bounds on the rounding function and the sub-scores -/

lemma pyRound_le (q : ℚ) (n : ℤ) (h : q ≤ (n : ℚ)) : pyRound q ≤ n := by
  unfold pyRound
  dsimp only
  have hf : ⌊q⌋ ≤ n := by
    have := Int.floor_le_floor h
    simpa using this
  have hq : (⌊q⌋ : ℚ) ≤ q := Int.floor_le q
  split_ifs with h1 h2 h3
  · exact hf
  · have hlt : ((⌊q⌋ : ℤ) : ℚ) < (n : ℚ) := by linarith
    have : ⌊q⌋ < n := by exact_mod_cast hlt
    omega
  · exact hf
  · have h4 : q - (⌊q⌋ : ℚ) = 1 / 2 := le_antisymm (not_lt.mp h2) (not_lt.mp h1)
    have hlt : ((⌊q⌋ : ℤ) : ℚ) < (n : ℚ) := by linarith
    have : ⌊q⌋ < n := by exact_mod_cast hlt
    omega

lemma pyRound_nonneg (q : ℚ) (h : 0 ≤ q) : 0 ≤ pyRound q := by
  unfold pyRound
  dsimp only
  have hf : 0 ≤ ⌊q⌋ := Int.le_floor.mpr (by exact_mod_cast h)
  split_ifs <;> omega

lemma pyRound_mono (q q' : ℚ) (h : q ≤ q') : pyRound q ≤ pyRound q' := by
  unfold pyRound
  dsimp only
  have hff : ⌊q⌋ ≤ ⌊q'⌋ := Int.floor_le_floor h
  have hfq : (⌊q⌋ : ℚ) ≤ q := Int.floor_le q
  have hfq' : (⌊q'⌋ : ℚ) ≤ q' := Int.floor_le q'
  have hql : q < ⌊q⌋ + 1 := Int.lt_floor_add_one q
  have hql' : q' < ⌊q'⌋ + 1 := Int.lt_floor_add_one q'
  split_ifs
  all_goals rcases lt_or_eq_of_le hff with hlt | heq
  all_goals try omega
  all_goals
    have hc : ((⌊q⌋ : ℤ) : ℚ) = ((⌊q'⌋ : ℤ) : ℚ) := by exact_mod_cast heq
  all_goals first | omega | linarith

lemma personal_score_bounds (d : Record) :
    0 ≤ calculate_personal_score d ∧ calculate_personal_score d ≤ 40 := by
  unfold calculate_personal_score
  dsimp only
  split_ifs <;> omega

lemma bill_score_bounds (d : Record) :
    0 ≤ calculate_bill_score d ∧ calculate_bill_score d ≤ 170 := by
  rw [calculate_bill_score]
  split_ifs with hg
  · omega
  · rw [bill_score_body]
    set c : ℤ := (if pyEq (Record.get0 d "electricity_verified") "Yes" then 1 else 0)
      + (if pyEq (Record.get0 d "dstv_verified") "Yes" then 1 else 0)
      + (if pyEq (Record.get0 d "internet_verified") "Yes" then 1 else 0)
      + (if pyEq (Record.get0 d "water_verified") "Yes" then 1 else 0)
      + (if pyEq (Record.get0 d "rent_verified") "Yes" then 1 else 0) with hc
    have hcb : 0 ≤ c ∧ c ≤ 5 := by rw [hc]; split_ifs <;> omega
    split_ifs <;> omega

lemma guarantor_score_bounds (d : Record) :
    0 ≤ calculate_guarantor_score d ∧ calculate_guarantor_score d ≤ 90 := by
  unfold calculate_guarantor_score
  dsimp only
  split_ifs <;> omega

lemma penalties_bounds (d : Record) :
    -100 ≤ calculate_penalties d ∧ calculate_penalties d ≤ 0 := by
  unfold calculate_penalties
  dsimp only
  split_ifs <;> omega

lemma air_score_body_bounds (d : Record) (s : ℤ) (h : air_score_body d = some s) :
    0 ≤ s ∧ s ≤ 120 := by
  cases h1 : getFloat0 d "airtime_spend_m1" with
  | none => rw [air_score_body, h1] at h; simp at h
  | some m1 =>
  cases h2 : getFloat0 d "airtime_spend_m2" with
  | none => rw [air_score_body, h1, h2] at h; simp at h
  | some m2 =>
  cases h3 : getFloat0 d "airtime_spend_m3" with
  | none => rw [air_score_body, h1, h2, h3] at h; simp at h
  | some m3 =>
  rw [air_score_body] at h
  simp only [h1, h2, h3, Option.bind_eq_bind, Option.some_bind, Option.pure_def,
    Option.some.injEq] at h
  subst h
  split_ifs <;> omega

lemma air_score_bounds (d : Record) (s : ℤ) (h : calculate_air_score d = some s) :
    0 ≤ s ∧ s ≤ 120 := by
  rw [calculate_air_score] at h
  split_ifs at h
  · simp only [Option.pure_def, Option.some.injEq] at h
    omega
  · exact air_score_body_bounds d s h

lemma p2p_score_body_bounds (d : Record) (s : ℤ) (h : p2p_score_body d = some s) :
    0 ≤ s ∧ s ≤ 110 := by
  cases h1 : getInt0 d "num_unique_verified_p2p" with
  | none => rw [p2p_score_body, h1] at h; simp at h
  | some n =>
  cases h2 : getFloat0 d "p2p_total_value" with
  | none => rw [p2p_score_body, h1, h2] at h; simp at h
  | some v =>
  rw [p2p_score_body] at h
  simp only [h1, h2, Option.bind_eq_bind, Option.some_bind, Option.pure_def,
    Option.some.injEq] at h
  subst h
  split_ifs <;> omega

lemma p2p_score_bounds (d : Record) (s : ℤ) (h : calculate_p2p_score d = some s) :
    0 ≤ s ∧ s ≤ 110 := by
  rw [calculate_p2p_score] at h
  split_ifs at h
  · simp only [Option.pure_def, Option.some.injEq] at h
    omega
  · exact p2p_score_body_bounds d s h

lemma bank_score_body_bounds (d : Record) (s : ℤ) (h : bank_score_body d = some s) :
    0 ≤ s ∧ s ≤ 180 := by
  cases h1 : getInt0 d "consistent_deposits_months" with
  | none => rw [bank_score_body, h1] at h; simp at h
  | some n =>
  cases h2 : getFloat0 d "avg_monthly_balance" with
  | none => rw [bank_score_body, h1, h2] at h; simp at h
  | some v =>
  rw [bank_score_body] at h
  simp only [h1, h2, Option.bind_eq_bind, Option.some_bind, Option.pure_def,
    Option.some.injEq] at h
  subst h
  split_ifs <;> omega

lemma bank_score_bounds (d : Record) (s : ℤ) (h : calculate_bank_score d = some s) :
    0 ≤ s ∧ s ≤ 180 := by
  rw [calculate_bank_score] at h
  split_ifs at h
  · simp only [Option.pure_def, Option.some.injEq] at h
    omega
  · exact bank_score_body_bounds d s h

/-- C2: whenever the engine returns a report, the scaled score is within
[0, 850] and the pre-scaling final raw score is within [0, 740]. -/
theorem C2_score_bounds (d : Record) (r : ScoreReport)
    (h : calculate_tidescore d = some r) :
    0 ≤ r.scaled_score ∧ r.scaled_score ≤ 850 ∧
    0 ≤ r.final_raw_score ∧ r.final_raw_score ≤ 740 := by
  obtain ⟨ha, hp, hb, hper, hbill, hguar, hpen, hpre, hfin, hsc, hrisk⟩ :=
    tidescore_inv d r h
  have B1 := personal_score_bounds d
  have B2 := air_score_bounds d r.airtime ha
  have B3 := bill_score_bounds d
  have B4 := p2p_score_bounds d r.p2p hp
  have B5 := bank_score_bounds d r.bank hb
  have B6 := guarantor_score_bounds d
  have B7 := penalties_bounds d
  have hfin0 : 0 ≤ r.final_raw_score := by rw [hfin]; omega
  have hfin740 : r.final_raw_score ≤ 740 := by
    rw [hfin, hpre, hper, hbill, hguar, hpen]
    omega
  have hm : ((max_possible_raw_score : ℤ) : ℚ) = 740 := by
    norm_num [max_possible_raw_score]
  have hq0 : (0 : ℚ) ≤ (r.final_raw_score : ℚ) / (max_possible_raw_score : ℚ) * 850 := by
    rw [hm]
    have hx : (0 : ℚ) ≤ (r.final_raw_score : ℚ) := by exact_mod_cast hfin0
    positivity
  have hq850 : (r.final_raw_score : ℚ) / (max_possible_raw_score : ℚ) * 850 ≤ ((850 : ℤ) : ℚ) := by
    rw [hm]
    have hx : (r.final_raw_score : ℚ) ≤ 740 := by exact_mod_cast hfin740
    have hdiv : (r.final_raw_score : ℚ) / 740 ≤ 1 := by
      rw [div_le_one (by norm_num : (0:ℚ) < 740)]
      exact hx
    have := mul_le_mul_of_nonneg_right hdiv (by norm_num : (0:ℚ) ≤ 850)
    push_cast
    linarith
  refine ⟨?_, ?_, hfin0, hfin740⟩
  · rw [hsc]
    exact pyRound_nonneg _ hq0
  · rw [hsc]
    exact pyRound_le _ 850 hq850

theorem C2_score_bounds_witness :
    0 ≤ (⟨0, "Very High", 0, 0, 0, 0, 0, 0, -100, 0, 0⟩ : ScoreReport).scaled_score ∧
    (⟨0, "Very High", 0, 0, 0, 0, 0, 0, -100, 0, 0⟩ : ScoreReport).scaled_score ≤ 850 ∧
    0 ≤ (⟨0, "Very High", 0, 0, 0, 0, 0, 0, -100, 0, 0⟩ : ScoreReport).final_raw_score ∧
    (⟨0, "Very High", 0, 0, 0, 0, 0, 0, -100, 0, 0⟩ : ScoreReport).final_raw_score ≤ 740 :=
  C2_score_bounds [] ⟨0, "Very High", 0, 0, 0, 0, 0, 0, -100, 0, 0⟩ empty_record_eval

/-- C5: risk classification uses ordered inclusive thresholds evaluated
high to low: 650/450/250 map to Low/Medium/High, 649/449/249 to the next
tier down, everything below 250 to Very High; and every report's risk level
is exactly this classification of its scaled score. -/
theorem C5_risk_thresholds :
    risk_level_of 650 = "Low" ∧ risk_level_of 450 = "Medium" ∧
    risk_level_of 250 = "High" ∧ risk_level_of 649 = "Medium" ∧
    risk_level_of 449 = "High" ∧ risk_level_of 249 = "Very High" ∧
    (∀ s : ℤ, s < 250 → risk_level_of s = "Very High") ∧
    (∀ (d : Record) (r : ScoreReport), calculate_tidescore d = some r →
      r.risk_level = risk_level_of r.scaled_score) := by
  refine ⟨?_, ?_, ?_, ?_, ?_, ?_, fun s hs => ?_, fun d r h => ?_⟩
  · norm_num [risk_level_of]
  · norm_num [risk_level_of]
  · norm_num [risk_level_of]
  · norm_num [risk_level_of]
  · norm_num [risk_level_of]
  · norm_num [risk_level_of]
  · rw [risk_level_of, if_neg (by omega), if_neg (by omega), if_neg (by omega)]
  · exact (tidescore_inv d r h).2.2.2.2.2.2.2.2.2.2

theorem C5_risk_thresholds_witness :
    risk_level_of 100 = "Very High" ∧
    (⟨0, "Very High", 0, 0, 0, 0, 0, 0, -100, 0, 0⟩ : ScoreReport).risk_level =
      risk_level_of
        (⟨0, "Very High", 0, 0, 0, 0, 0, 0, -100, 0, 0⟩ : ScoreReport).scaled_score :=
  ⟨C5_risk_thresholds.2.2.2.2.2.2.1 100 (by norm_num),
   C5_risk_thresholds.2.2.2.2.2.2.2 [] ⟨0, "Very High", 0, 0, 0, 0, 0, 0, -100, 0, 0⟩
     empty_record_eval⟩

/-! The suggestion list, characterized -/

lemma append_ite (l : List String) (c : Prop) [Decidable c] (m : String) :
    (if c then l ++ [m] else l) = l ++ (if c then [m] else []) := by
  split_ifs <;> simp

lemma append_ite4 (L : List String) (b1 b2 b3 : Prop)
    [Decidable b1] [Decidable b2] [Decidable b3] (x y z w : String) :
    (if b1 then L ++ [x] else if b2 then L ++ [y]
     else if b3 then L ++ [z] else L ++ [w]) =
      L ++ [if b1 then x else if b2 then y else if b3 then z else w] := by
  split_ifs <;> rfl

/-- The suggestion list is the concatenation of the five threshold-gated
category messages with exactly one band-selected overall message. -/
lemma suggestions_eq (r : ScoreReport) :
    get_score_suggestions r =
      (((((if r.personal < 25 then [msg_personal] else []) ++
        (if r.airtime < 60 then [msg_airtime] else [])) ++
        (if r.bill < 85 then [msg_bill] else [])) ++
        (if r.bank < 100 then [msg_bank] else [])) ++
        (if r.guarantors < 45 then [msg_guarantors] else [])) ++
      [if r.scaled_score < 250 then msg_very_high_risk
       else if r.scaled_score < 450 then msg_medium_risk
       else if r.scaled_score < 650 then msg_good else msg_excellent] := by
  unfold get_score_suggestions
  simp only [append_ite4, append_ite, List.nil_append]

lemma count_ite_singleton_self (a : String) (c : Prop) [Decidable c] :
    List.count a (if c then [a] else []) = if c then 1 else 0 := by
  split_ifs <;> simp

lemma count_ite_singleton_ne (a b : String) (c : Prop) [Decidable c] (h : ¬ b = a) :
    List.count a (if c then [b] else []) = 0 := by
  split_ifs <;> simp [List.count_singleton', h]

lemma count_band_ne (a : String) (s : ℤ) (h1 : ¬ msg_very_high_risk = a)
    (h2 : ¬ msg_medium_risk = a) (h3 : ¬ msg_good = a) (h4 : ¬ msg_excellent = a) :
    List.count a [if s < 250 then msg_very_high_risk
      else if s < 450 then msg_medium_risk
      else if s < 650 then msg_good else msg_excellent] = 0 := by
  split_ifs <;> simp [List.count_singleton', h1, h2, h3, h4]

/-- C9: for every report, each category message appears exactly once when
that category's breakdown score is under its threshold (Personal<25,
Airtime<60, Bill<85, Bank<100, Guarantors<45) and never otherwise; exactly
one overall message appears, chosen by the risk-classification bands; and a
report with scaled score 700 gets the "Excellent score" message and neither
risk-warning message.  (`get_score_suggestions` is a pure function of the
report, so the input report is never mutated.) -/
theorem C9_suggestion_generation (r : ScoreReport) :
    ((get_score_suggestions r).count msg_personal =
      if r.personal < 25 then 1 else 0) ∧
    ((get_score_suggestions r).count msg_airtime =
      if r.airtime < 60 then 1 else 0) ∧
    ((get_score_suggestions r).count msg_bill =
      if r.bill < 85 then 1 else 0) ∧
    ((get_score_suggestions r).count msg_bank =
      if r.bank < 100 then 1 else 0) ∧
    ((get_score_suggestions r).count msg_guarantors =
      if r.guarantors < 45 then 1 else 0) ∧
    ((get_score_suggestions r).count msg_very_high_risk =
      if r.scaled_score < 250 then 1 else 0) ∧
    ((get_score_suggestions r).count msg_medium_risk =
      if 250 ≤ r.scaled_score ∧ r.scaled_score < 450 then 1 else 0) ∧
    ((get_score_suggestions r).count msg_good =
      if 450 ≤ r.scaled_score ∧ r.scaled_score < 650 then 1 else 0) ∧
    ((get_score_suggestions r).count msg_excellent =
      if 650 ≤ r.scaled_score then 1 else 0) ∧
    (r.scaled_score = 700 →
      msg_excellent ∈ get_score_suggestions r ∧
      msg_very_high_risk ∉ get_score_suggestions r ∧
      msg_medium_risk ∉ get_score_suggestions r) := by
  refine ⟨?_, ?_, ?_, ?_, ?_, ?_, ?_, ?_, ?_, fun h700 => ?_⟩
  · rw [suggestions_eq]
    simp only [List.count_append]
    rw [count_ite_singleton_self msg_personal,
      count_ite_singleton_ne msg_personal msg_airtime _ (by decide),
      count_ite_singleton_ne msg_personal msg_bill _ (by decide),
      count_ite_singleton_ne msg_personal msg_bank _ (by decide),
      count_ite_singleton_ne msg_personal msg_guarantors _ (by decide),
      count_band_ne msg_personal r.scaled_score (by decide) (by decide) (by decide)
        (by decide)]
    split_ifs <;> omega
  · rw [suggestions_eq]
    simp only [List.count_append]
    rw [count_ite_singleton_self msg_airtime,
      count_ite_singleton_ne msg_airtime msg_personal _ (by decide),
      count_ite_singleton_ne msg_airtime msg_bill _ (by decide),
      count_ite_singleton_ne msg_airtime msg_bank _ (by decide),
      count_ite_singleton_ne msg_airtime msg_guarantors _ (by decide),
      count_band_ne msg_airtime r.scaled_score (by decide) (by decide) (by decide)
        (by decide)]
    split_ifs <;> omega
  · rw [suggestions_eq]
    simp only [List.count_append]
    rw [count_ite_singleton_self msg_bill,
      count_ite_singleton_ne msg_bill msg_personal _ (by decide),
      count_ite_singleton_ne msg_bill msg_airtime _ (by decide),
      count_ite_singleton_ne msg_bill msg_bank _ (by decide),
      count_ite_singleton_ne msg_bill msg_guarantors _ (by decide),
      count_band_ne msg_bill r.scaled_score (by decide) (by decide) (by decide)
        (by decide)]
    split_ifs <;> omega
  · rw [suggestions_eq]
    simp only [List.count_append]
    rw [count_ite_singleton_self msg_bank,
      count_ite_singleton_ne msg_bank msg_personal _ (by decide),
      count_ite_singleton_ne msg_bank msg_airtime _ (by decide),
      count_ite_singleton_ne msg_bank msg_bill _ (by decide),
      count_ite_singleton_ne msg_bank msg_guarantors _ (by decide),
      count_band_ne msg_bank r.scaled_score (by decide) (by decide) (by decide)
        (by decide)]
    split_ifs <;> omega
  · rw [suggestions_eq]
    simp only [List.count_append]
    rw [count_ite_singleton_self msg_guarantors,
      count_ite_singleton_ne msg_guarantors msg_personal _ (by decide),
      count_ite_singleton_ne msg_guarantors msg_airtime _ (by decide),
      count_ite_singleton_ne msg_guarantors msg_bill _ (by decide),
      count_ite_singleton_ne msg_guarantors msg_bank _ (by decide),
      count_band_ne msg_guarantors r.scaled_score (by decide) (by decide) (by decide)
        (by decide)]
    split_ifs <;> omega
  · rw [suggestions_eq]
    simp only [List.count_append]
    rw [count_ite_singleton_ne msg_very_high_risk msg_personal _ (by decide),
      count_ite_singleton_ne msg_very_high_risk msg_airtime _ (by decide),
      count_ite_singleton_ne msg_very_high_risk msg_bill _ (by decide),
      count_ite_singleton_ne msg_very_high_risk msg_bank _ (by decide),
      count_ite_singleton_ne msg_very_high_risk msg_guarantors _ (by decide)]
    split_ifs <;> decide
  · rw [suggestions_eq]
    simp only [List.count_append]
    rw [count_ite_singleton_ne msg_medium_risk msg_personal _ (by decide),
      count_ite_singleton_ne msg_medium_risk msg_airtime _ (by decide),
      count_ite_singleton_ne msg_medium_risk msg_bill _ (by decide),
      count_ite_singleton_ne msg_medium_risk msg_bank _ (by decide),
      count_ite_singleton_ne msg_medium_risk msg_guarantors _ (by decide)]
    split_ifs <;> first | decide | omega
  · rw [suggestions_eq]
    simp only [List.count_append]
    rw [count_ite_singleton_ne msg_good msg_personal _ (by decide),
      count_ite_singleton_ne msg_good msg_airtime _ (by decide),
      count_ite_singleton_ne msg_good msg_bill _ (by decide),
      count_ite_singleton_ne msg_good msg_bank _ (by decide),
      count_ite_singleton_ne msg_good msg_guarantors _ (by decide)]
    split_ifs <;> first | decide | omega
  · rw [suggestions_eq]
    simp only [List.count_append]
    rw [count_ite_singleton_ne msg_excellent msg_personal _ (by decide),
      count_ite_singleton_ne msg_excellent msg_airtime _ (by decide),
      count_ite_singleton_ne msg_excellent msg_bill _ (by decide),
      count_ite_singleton_ne msg_excellent msg_bank _ (by decide),
      count_ite_singleton_ne msg_excellent msg_guarantors _ (by decide)]
    split_ifs <;> first | decide | omega
  · rw [suggestions_eq, h700]
    norm_num [List.mem_append]
    constructor
    · refine ⟨?_, ?_, ?_, ?_, ?_, ?_⟩ <;> first | decide | (intro hc; decide)
    · refine ⟨?_, ?_, ?_, ?_, ?_, ?_⟩ <;> first | decide | (intro hc; decide)

theorem C9_suggestion_generation_witness :
    msg_excellent ∈
      get_score_suggestions ⟨700, "Low", 30, 70, 90, 60, 110, 50, 0, 610, 610⟩ ∧
    msg_very_high_risk ∉
      get_score_suggestions ⟨700, "Low", 30, 70, 90, 60, 110, 50, 0, 610, 610⟩ ∧
    msg_medium_risk ∉
      get_score_suggestions ⟨700, "Low", 30, 70, 90, 60, 110, 50, 0, 610, 610⟩ :=
  (C9_suggestion_generation ⟨700, "Low", 30, 70, 90, 60, 110, 50, 0, 610, 610⟩)
    |>.2.2.2.2.2.2.2.2.2 rfl


lemma get?_cons_self (d : Record) (k : String) (v : PyVal) :
    Record.get? ((k, v) :: d) k = some v := by simp [Record.get?]

lemma get?_cons_ne (d : Record) (k key : String) (v : PyVal) (h : ¬ k = key) :
    Record.get? ((k, v) :: d) key = Record.get? d key := by simp [Record.get?, h]

lemma getFloat0_cons_self (d : Record) (k : String) (q : ℚ) :
    getFloat0 ((k, PyVal.vNum q) :: d) k = some q := by
  unfold getFloat0 Record.getD
  rw [get?_cons_self]
  by_cases h : q = 0 <;> simp [pyOr, pyTruthy, pyFloat, h]

lemma getInt0_cons_self (d : Record) (k : String) (q : ℚ) :
    getInt0 ((k, PyVal.vNum q) :: d) k = some (ratTrunc q) := by
  unfold getInt0 Record.getD
  rw [get?_cons_self]
  by_cases h : q = 0 <;> simp [pyOr, pyTruthy, pyInt, h, ratTrunc]

lemma ratTrunc_mono (q q' : ℚ) (h : q ≤ q') : ratTrunc q ≤ ratTrunc q' := by
  unfold ratTrunc
  by_cases h1 : 0 ≤ q
  · rw [if_pos h1, if_pos (le_trans h1 h)]
    exact Int.floor_le_floor h
  · rw [if_neg h1]
    by_cases h2 : 0 ≤ q'
    · rw [if_pos h2]
      have h1' : ⌈q⌉ ≤ 0 := Int.ceil_le.mpr (by exact_mod_cast le_of_not_le h1)
      have h2' : 0 ≤ ⌊q'⌋ := Int.le_floor.mpr (by exact_mod_cast h2)
      omega
    · rw [if_neg h2]
      exact Int.ceil_le_ceil h

lemma personal_congr (d1 d2 : Record)
    (h1 : Record.get? d1 "employment_verified" = Record.get? d2 "employment_verified")
    (h2 : Record.get? d1 "employment_status" = Record.get? d2 "employment_status")
    (h3 : Record.get? d1 "residency_verified" = Record.get? d2 "residency_verified")
    (h4 : Record.get? d1 "education_level" = Record.get? d2 "education_level") :
    calculate_personal_score d1 = calculate_personal_score d2 := by
  simp only [calculate_personal_score, Record.get0, Record.getD, h1, h2, h3, h4]

lemma air_congr (d1 d2 : Record)
    (h0 : Record.get? d1 "airtime_status" = Record.get? d2 "airtime_status")
    (h1 : Record.get? d1 "airtime_spend_m1" = Record.get? d2 "airtime_spend_m1")
    (h2 : Record.get? d1 "airtime_spend_m2" = Record.get? d2 "airtime_spend_m2")
    (h3 : Record.get? d1 "airtime_spend_m3" = Record.get? d2 "airtime_spend_m3") :
    calculate_air_score d1 = calculate_air_score d2 := by
  simp only [calculate_air_score, air_score_body, subGate, Record.get0, Record.getD,
    getFloat0, h0, h1, h2, h3]

lemma bill_congr (d1 d2 : Record)
    (h0 : Record.get? d1 "bill_status" = Record.get? d2 "bill_status")
    (h1 : Record.get? d1 "electricity_verified" = Record.get? d2 "electricity_verified")
    (h2 : Record.get? d1 "dstv_verified" = Record.get? d2 "dstv_verified")
    (h3 : Record.get? d1 "internet_verified" = Record.get? d2 "internet_verified")
    (h4 : Record.get? d1 "water_verified" = Record.get? d2 "water_verified")
    (h5 : Record.get? d1 "rent_verified" = Record.get? d2 "rent_verified") :
    calculate_bill_score d1 = calculate_bill_score d2 := by
  simp only [calculate_bill_score, bill_score_body, subGate, Record.get0, Record.getD,
    h0, h1, h2, h3, h4, h5]

lemma p2p_congr (d1 d2 : Record)
    (h0 : Record.get? d1 "p2p_status" = Record.get? d2 "p2p_status")
    (h1 : Record.get? d1 "num_unique_verified_p2p" = Record.get? d2 "num_unique_verified_p2p")
    (h2 : Record.get? d1 "p2p_total_value" = Record.get? d2 "p2p_total_value")
    (h3 : Record.get? d1 "p2p_consistent_across_months" =
      Record.get? d2 "p2p_consistent_across_months") :
    calculate_p2p_score d1 = calculate_p2p_score d2 := by
  simp only [calculate_p2p_score, p2p_score_body, subGate, Record.get0, Record.getD,
    getFloat0, getInt0, h0, h1, h2, h3]

lemma bank_congr (d1 d2 : Record)
    (h0 : Record.get? d1 "bank_status" = Record.get? d2 "bank_status")
    (h1 : Record.get? d1 "consistent_deposits_months" =
      Record.get? d2 "consistent_deposits_months")
    (h2 : Record.get? d1 "avg_monthly_balance" = Record.get? d2 "avg_monthly_balance")
    (h3 : Record.get? d1 "no_negative_flags" = Record.get? d2 "no_negative_flags") :
    calculate_bank_score d1 = calculate_bank_score d2 := by
  simp only [calculate_bank_score, bank_score_body, subGate, Record.get0, Record.getD,
    getFloat0, getInt0, h0, h1, h2, h3]

lemma guarantor_congr (d1 d2 : Record)
    (h1 : Record.get? d1 "g1_verified" = Record.get? d2 "g1_verified")
    (h2 : Record.get? d1 "g2_verified" = Record.get? d2 "g2_verified")
    (h3 : Record.get? d1 "g1_relationship" = Record.get? d2 "g1_relationship")
    (h4 : Record.get? d1 "g2_relationship" = Record.get? d2 "g2_relationship") :
    calculate_guarantor_score d1 = calculate_guarantor_score d2 := by
  simp only [calculate_guarantor_score, g1v, g2v, Record.get0, Record.getD,
    h1, h2, h3, h4]

lemma penalties_congr (d1 d2 : Record)
    (h0 : Record.get? d1 "airtime_status" = Record.get? d2 "airtime_status")
    (h1 : Record.get? d1 "bill_status" = Record.get? d2 "bill_status")
    (h2 : Record.get? d1 "p2p_status" = Record.get? d2 "p2p_status")
    (h3 : Record.get? d1 "bank_status" = Record.get? d2 "bank_status")
    (h4 : Record.get? d1 "g1_verified" = Record.get? d2 "g1_verified")
    (h5 : Record.get? d1 "g2_verified" = Record.get? d2 "g2_verified") :
    calculate_penalties d1 = calculate_penalties d2 := by
  simp only [calculate_penalties, penGate, g1v, g2v, Record.get0, Record.getD,
    h0, h1, h2, h3, h4, h5]

lemma mono_of_eq {f g : Option ℤ} (h : f = g) :
    ∀ s, f = some s → ∃ t, g = some t ∧ s ≤ t :=
  fun s hs => ⟨s, h ▸ hs, le_refl s⟩


lemma consAdd_mono (Tm Tn k : ℤ) (hT : Tm ≤ Tn) (cm cn : Prop)
    [Decidable cm] [Decidable cn] (hc : cm → cn) (hk : 0 ≤ k) :
    (if cm then Tm + k else Tm) ≤ (if cn then Tn + k else Tn) := by
  by_cases hm : cm
  · rw [if_pos hm, if_pos (hc hm)]
    omega
  · rw [if_neg hm]
    split_ifs <;> omega

lemma airTier_mono (t t' : ℚ) (h : t ≤ t') :
    (if 15000 ≤ t then (100:ℤ)
     else if 10000 ≤ t then 75
     else if 5000 ≤ t then 50
     else if 2000 ≤ t then 20 else 0) ≤
    (if 15000 ≤ t' then (100:ℤ)
     else if 10000 ≤ t' then 75
     else if 5000 ≤ t' then 50
     else if 2000 ≤ t' then 20 else 0) := by
  split_ifs <;> first | omega | (exfalso; linarith)

lemma airFormula_mono (m1 m2 m3 n1 n2 n3 : ℚ)
    (e1 : m1 ≤ n1) (e2 : m2 ≤ n2) (e3 : m3 ≤ n3) :
    ((if 0 < m1 ∧ 0 < m2 ∧ 0 < m3 then
        (if 15000 ≤ m1 + m2 + m3 then (100:ℤ)
         else if 10000 ≤ m1 + m2 + m3 then 75
         else if 5000 ≤ m1 + m2 + m3 then 50
         else if 2000 ≤ m1 + m2 + m3 then 20 else 0) + 20
      else
        (if 15000 ≤ m1 + m2 + m3 then (100:ℤ)
         else if 10000 ≤ m1 + m2 + m3 then 75
         else if 5000 ≤ m1 + m2 + m3 then 50
         else if 2000 ≤ m1 + m2 + m3 then 20 else 0)) : ℤ) ≤
    ((if 0 < n1 ∧ 0 < n2 ∧ 0 < n3 then
        (if 15000 ≤ n1 + n2 + n3 then (100:ℤ)
         else if 10000 ≤ n1 + n2 + n3 then 75
         else if 5000 ≤ n1 + n2 + n3 then 50
         else if 2000 ≤ n1 + n2 + n3 then 20 else 0) + 20
      else
        (if 15000 ≤ n1 + n2 + n3 then (100:ℤ)
         else if 10000 ≤ n1 + n2 + n3 then 75
         else if 5000 ≤ n1 + n2 + n3 then 50
         else if 2000 ≤ n1 + n2 + n3 then 20 else 0)) : ℤ) := by
  refine consAdd_mono _ _ 20 (airTier_mono _ _ (by linarith)) _ _ (fun hx => ?_) (by omega)
  exact ⟨lt_of_lt_of_le hx.1 e1, lt_of_lt_of_le hx.2.1 e2, lt_of_lt_of_le hx.2.2 e3⟩

lemma air_body_mono (d1 d2 : Record) (m1 m2 m3 n1 n2 n3 : ℚ)
    (e1 : m1 ≤ n1) (e2 : m2 ≤ n2) (e3 : m3 ≤ n3)
    (h1 : getFloat0 d1 "airtime_spend_m1" = some m1)
    (h2 : getFloat0 d1 "airtime_spend_m2" = some m2)
    (h3 : getFloat0 d1 "airtime_spend_m3" = some m3)
    (g1 : getFloat0 d2 "airtime_spend_m1" = some n1)
    (g2 : getFloat0 d2 "airtime_spend_m2" = some n2)
    (g3 : getFloat0 d2 "airtime_spend_m3" = some n3) :
    ∀ s, air_score_body d1 = some s → ∃ t, air_score_body d2 = some t ∧ s ≤ t := by
  intro s hs
  rw [air_score_body] at hs
  simp only [h1, h2, h3, Option.bind_eq_bind, Option.some_bind, Option.pure_def,
    Option.some.injEq] at hs
  refine ⟨(if 0 < n1 ∧ 0 < n2 ∧ 0 < n3 then
      (if 15000 ≤ n1 + n2 + n3 then (100:ℤ)
       else if 10000 ≤ n1 + n2 + n3 then 75
       else if 5000 ≤ n1 + n2 + n3 then 50
       else if 2000 ≤ n1 + n2 + n3 then 20 else 0) + 20
    else
      (if 15000 ≤ n1 + n2 + n3 then (100:ℤ)
       else if 10000 ≤ n1 + n2 + n3 then 75
       else if 5000 ≤ n1 + n2 + n3 then 50
       else if 2000 ≤ n1 + n2 + n3 then 20 else 0)), ?_, ?_⟩
  · rw [air_score_body]
    simp only [g1, g2, g3, Option.bind_eq_bind, Option.some_bind, Option.pure_def]
  · subst hs
    exact airFormula_mono m1 m2 m3 n1 n2 n3 e1 e2 e3


lemma p2pTier_mono (a1 a2 : ℤ) (ea : a1 ≤ a2) :
    (if 5 ≤ a1 then (80:ℤ) else if 3 ≤ a1 then 50 else if 1 ≤ a1 then 20 else 0) ≤
    (if 5 ≤ a2 then (80:ℤ) else if 3 ≤ a2 then 50 else if 1 ≤ a2 then 20 else 0) := by
  split_ifs <;> omega

lemma p2p_body_mono (d1 d2 : Record) (a1 a2 : ℤ) (v1 v2 : ℚ)
    (ea : a1 ≤ a2) (ev : v1 ≤ v2)
    (h1 : getInt0 d1 "num_unique_verified_p2p" = some a1)
    (h2 : getFloat0 d1 "p2p_total_value" = some v1)
    (hf : Record.get0 d1 "p2p_consistent_across_months" =
      Record.get0 d2 "p2p_consistent_across_months")
    (g1 : getInt0 d2 "num_unique_verified_p2p" = some a2)
    (g2 : getFloat0 d2 "p2p_total_value" = some v2) :
    ∀ s, p2p_score_body d1 = some s → ∃ t, p2p_score_body d2 = some t ∧ s ≤ t := by
  intro s hs
  rw [p2p_score_body] at hs
  simp only [h1, h2, Option.bind_eq_bind, Option.some_bind, Option.pure_def,
    Option.some.injEq] at hs
  rw [hf] at hs
  refine ⟨(if pyEq (Record.get0 d2 "p2p_consistent_across_months") "Yes" then
      (if 50000 ≤ v2 then
        (if 5 ≤ a2 then (80:ℤ) else if 3 ≤ a2 then 50 else if 1 ≤ a2 then 20 else 0) + 20
       else
        (if 5 ≤ a2 then (80:ℤ) else if 3 ≤ a2 then 50 else if 1 ≤ a2 then 20 else 0)) + 10
    else
      (if 50000 ≤ v2 then
        (if 5 ≤ a2 then (80:ℤ) else if 3 ≤ a2 then 50 else if 1 ≤ a2 then 20 else 0) + 20
       else
        (if 5 ≤ a2 then (80:ℤ) else if 3 ≤ a2 then 50 else if 1 ≤ a2 then 20 else 0))), ?_, ?_⟩
  · rw [p2p_score_body]
    simp only [g1, g2, Option.bind_eq_bind, Option.some_bind, Option.pure_def]
  · subst hs
    have hmid := consAdd_mono _ _ 20 (p2pTier_mono a1 a2 ea) ((50000:ℚ) ≤ v1)
      ((50000:ℚ) ≤ v2) (fun hx => le_trans hx ev) (by omega)
    exact consAdd_mono _ _ 10 hmid _ _ id (by omega)

lemma bankTier_mono (a1 a2 : ℤ) (ea : a1 ≤ a2) :
    (if 5 ≤ a1 then (100:ℤ) else if 3 ≤ a1 then 60 else if 1 ≤ a1 then 20 else 0) ≤
    (if 5 ≤ a2 then (100:ℤ) else if 3 ≤ a2 then 60 else if 1 ≤ a2 then 20 else 0) := by
  split_ifs <;> omega

lemma bankBalance_mono (T1 T2 : ℤ) (hT : T1 ≤ T2) (v1 v2 : ℚ) (ev : v1 ≤ v2) :
    (if 10000 ≤ v1 then T1 + 50 else if 5000 ≤ v1 then T1 + 30
     else if 1000 ≤ v1 then T1 + 10 else T1) ≤
    (if 10000 ≤ v2 then T2 + 50 else if 5000 ≤ v2 then T2 + 30
     else if 1000 ≤ v2 then T2 + 10 else T2) := by
  split_ifs <;> first | omega | (exfalso; linarith)

lemma bank_body_mono (d1 d2 : Record) (a1 a2 : ℤ) (v1 v2 : ℚ)
    (ea : a1 ≤ a2) (ev : v1 ≤ v2)
    (h1 : getInt0 d1 "consistent_deposits_months" = some a1)
    (h2 : getFloat0 d1 "avg_monthly_balance" = some v1)
    (hf : Record.get0 d1 "no_negative_flags" = Record.get0 d2 "no_negative_flags")
    (g1 : getInt0 d2 "consistent_deposits_months" = some a2)
    (g2 : getFloat0 d2 "avg_monthly_balance" = some v2) :
    ∀ s, bank_score_body d1 = some s → ∃ t, bank_score_body d2 = some t ∧ s ≤ t := by
  intro s hs
  rw [bank_score_body] at hs
  simp only [h1, h2, Option.bind_eq_bind, Option.some_bind, Option.pure_def,
    Option.some.injEq] at hs
  rw [hf] at hs
  refine ⟨(if pyEq (Record.get0 d2 "no_negative_flags") "Yes" then
      (if 10000 ≤ v2 then
        (if 5 ≤ a2 then (100:ℤ) else if 3 ≤ a2 then 60 else if 1 ≤ a2 then 20 else 0) + 50
       else if 5000 ≤ v2 then
        (if 5 ≤ a2 then (100:ℤ) else if 3 ≤ a2 then 60 else if 1 ≤ a2 then 20 else 0) + 30
       else if 1000 ≤ v2 then
        (if 5 ≤ a2 then (100:ℤ) else if 3 ≤ a2 then 60 else if 1 ≤ a2 then 20 else 0) + 10
       else
        (if 5 ≤ a2 then (100:ℤ) else if 3 ≤ a2 then 60 else if 1 ≤ a2 then 20 else 0)) + 30
    else
      (if 10000 ≤ v2 then
        (if 5 ≤ a2 then (100:ℤ) else if 3 ≤ a2 then 60 else if 1 ≤ a2 then 20 else 0) + 50
       else if 5000 ≤ v2 then
        (if 5 ≤ a2 then (100:ℤ) else if 3 ≤ a2 then 60 else if 1 ≤ a2 then 20 else 0) + 30
       else if 1000 ≤ v2 then
        (if 5 ≤ a2 then (100:ℤ) else if 3 ≤ a2 then 60 else if 1 ≤ a2 then 20 else 0) + 10
       else
        (if 5 ≤ a2 then (100:ℤ) else if 3 ≤ a2 then 60 else if 1 ≤ a2 then 20 else 0))), ?_, ?_⟩
  · rw [bank_score_body]
    simp only [g1, g2, Option.bind_eq_bind, Option.some_bind, Option.pure_def]
  · subst hs
    have hmid := bankBalance_mono _ _ (bankTier_mono a1 a2 ea) v1 v2 ev
    exact consAdd_mono _ _ 30 hmid _ _ id (by omega)


lemma getFloat0_cons_ne (d : Record) (k key : String) (v : PyVal) (h : ¬ k = key) :
    getFloat0 ((k, v) :: d) key = getFloat0 d key := by
  unfold getFloat0 Record.getD
  rw [get?_cons_ne _ _ _ _ h]

lemma getInt0_cons_ne (d : Record) (k key : String) (v : PyVal) (h : ¬ k = key) :
    getInt0 ((k, v) :: d) key = getInt0 d key := by
  unfold getInt0 Record.getD
  rw [get?_cons_ne _ _ _ _ h]

lemma get0_cons_ne (d : Record) (k key : String) (v : PyVal) (h : ¬ k = key) :
    Record.get0 ((k, v) :: d) key = Record.get0 d key := by
  unfold Record.get0 Record.getD
  rw [get?_cons_ne _ _ _ _ h]

lemma subGate_cons_ne (d : Record) (k key : String) (v : PyVal) (h : ¬ k = key) :
    subGate ((k, v) :: d) key = subGate d key := by
  unfold subGate
  rw [get0_cons_ne _ _ _ _ h]

lemma gate_mono (g1 g2 : Bool) (hg : g1 = g2) (f1 f2 : Option ℤ)
    (hb : ∀ s, f1 = some s → ∃ t, f2 = some t ∧ s ≤ t) :
    ∀ s, (if g1 then pure 0 else f1) = some s →
      ∃ t, (if g2 then pure 0 else f2) = some t ∧ s ≤ t := by
  subst hg
  intro s hs
  by_cases h : g1 = true
  · rw [if_pos h] at hs ⊢
    exact ⟨s, hs, le_refl s⟩
  · rw [if_neg h] at hs ⊢
    exact hb s hs

lemma calculate_air_mono (d1 d2 : Record)
    (hg : subGate d1 "airtime_status" = subGate d2 "airtime_status")
    (hb : ∀ s, air_score_body d1 = some s → ∃ t, air_score_body d2 = some t ∧ s ≤ t) :
    ∀ s, calculate_air_score d1 = some s →
      ∃ t, calculate_air_score d2 = some t ∧ s ≤ t := by
  unfold calculate_air_score
  exact gate_mono _ _ hg _ _ hb

lemma calculate_p2p_mono (d1 d2 : Record)
    (hg : subGate d1 "p2p_status" = subGate d2 "p2p_status")
    (hb : ∀ s, p2p_score_body d1 = some s → ∃ t, p2p_score_body d2 = some t ∧ s ≤ t) :
    ∀ s, calculate_p2p_score d1 = some s →
      ∃ t, calculate_p2p_score d2 = some t ∧ s ≤ t := by
  unfold calculate_p2p_score
  exact gate_mono _ _ hg _ _ hb

lemma calculate_bank_mono (d1 d2 : Record)
    (hg : subGate d1 "bank_status" = subGate d2 "bank_status")
    (hb : ∀ s, bank_score_body d1 = some s → ∃ t, bank_score_body d2 = some t ∧ s ≤ t) :
    ∀ s, calculate_bank_score d1 = some s →
      ∃ t, calculate_bank_score d2 = some t ∧ s ≤ t := by
  unfold calculate_bank_score
  exact gate_mono _ _ hg _ _ hb

lemma tidescore_mono (d1 d2 : Record)
    (hper : calculate_personal_score d1 = calculate_personal_score d2)
    (hbill : calculate_bill_score d1 = calculate_bill_score d2)
    (hguar : calculate_guarantor_score d1 = calculate_guarantor_score d2)
    (hpen : calculate_penalties d1 = calculate_penalties d2)
    (hair : ∀ s, calculate_air_score d1 = some s →
      ∃ t, calculate_air_score d2 = some t ∧ s ≤ t)
    (hp2p : ∀ s, calculate_p2p_score d1 = some s →
      ∃ t, calculate_p2p_score d2 = some t ∧ s ≤ t)
    (hbank : ∀ s, calculate_bank_score d1 = some s →
      ∃ t, calculate_bank_score d2 = some t ∧ s ≤ t)
    (r1 : ScoreReport) (h1 : calculate_tidescore d1 = some r1) :
    ∃ r2, calculate_tidescore d2 = some r2 ∧
      r1.scaled_score ≤ r2.scaled_score ∧ r1.airtime ≤ r2.airtime := by
  obtain ⟨hA, hP, hB, hper1, hbill1, hguar1, hpen1, hpre1, hfin1, hsc1, hrl1⟩ :=
    tidescore_inv d1 r1 h1
  obtain ⟨a2, hA2, haa⟩ := hair _ hA
  obtain ⟨p2, hP2, hpp⟩ := hp2p _ hP
  obtain ⟨b2, hB2, hbb⟩ := hbank _ hB
  have h2 : ∃ r2, calculate_tidescore d2 = some r2 := by
    rw [calculate_tidescore]
    simp only [hA2, hP2, hB2, Option.bind_eq_bind, Option.some_bind, Option.pure_def]
    exact ⟨_, rfl⟩
  obtain ⟨r2, h2⟩ := h2
  obtain ⟨hA2', hP2', hB2', hper2, hbill2, hguar2, hpen2, hpre2, hfin2, hsc2, hrl2⟩ :=
    tidescore_inv d2 r2 h2
  rw [hA2] at hA2'
  rw [hP2] at hP2'
  rw [hB2] at hB2'
  have ea2 : r2.airtime = a2 := (Option.some_inj.mp hA2').symm
  have ep2 : r2.p2p = p2 := (Option.some_inj.mp hP2').symm
  have eb2 : r2.bank = b2 := (Option.some_inj.mp hB2').symm
  have hfinle : r1.final_raw_score ≤ r2.final_raw_score := by
    rw [hfin1, hfin2, hpre1, hpre2, hper1, hper2, hbill1, hbill2, hguar1, hguar2,
      hpen1, hpen2, ea2, ep2, eb2, ← hper, ← hbill, ← hguar, ← hpen]
    omega
  have hm : ((max_possible_raw_score : ℤ) : ℚ) = 740 := by
    norm_num [max_possible_raw_score]
  have hq : (r1.final_raw_score : ℚ) / (max_possible_raw_score : ℚ) * 850 ≤
      (r2.final_raw_score : ℚ) / (max_possible_raw_score : ℚ) * 850 := by
    rw [hm]
    have hx : (r1.final_raw_score : ℚ) ≤ (r2.final_raw_score : ℚ) := by
      exact_mod_cast hfinle
    gcongr
  refine ⟨r2, h2, ?_, ?_⟩
  · rw [hsc1, hsc2]
    exact pyRound_mono _ _ hq
  · rw [ea2]
    exact haa


lemma air_set_mono (d : Record) (q q' : ℚ) (hq : q ≤ q') (k : String)
    (hk : k = "airtime_spend_m1" ∨ k = "airtime_spend_m2" ∨ k = "airtime_spend_m3") :
    ∀ s, air_score_body ((k, PyVal.vNum q) :: d) = some s →
      ∃ t, air_score_body ((k, PyVal.vNum q') :: d) = some t ∧ s ≤ t := by
  rcases hk with rfl | rfl | rfl
  · intro s hs
    cases h2 : getFloat0 d "airtime_spend_m2" with
    | none =>
      rw [air_score_body] at hs
      simp only [getFloat0_cons_self,
        getFloat0_cons_ne d "airtime_spend_m1" "airtime_spend_m2" (PyVal.vNum q)
          (by decide), h2, Option.bind_eq_bind, Option.some_bind, Option.none_bind] at hs
      exact absurd hs (by simp)
    | some m2 =>
    cases h3 : getFloat0 d "airtime_spend_m3" with
    | none =>
      rw [air_score_body] at hs
      simp only [getFloat0_cons_self,
        getFloat0_cons_ne d "airtime_spend_m1" "airtime_spend_m2" (PyVal.vNum q)
          (by decide),
        getFloat0_cons_ne d "airtime_spend_m1" "airtime_spend_m3" (PyVal.vNum q)
          (by decide), h2, h3, Option.bind_eq_bind, Option.some_bind,
        Option.none_bind] at hs
      exact absurd hs (by simp)
    | some m3 =>
      exact air_body_mono _ _ q m2 m3 q' m2 m3 hq (le_refl _) (le_refl _)
        (getFloat0_cons_self d _ q)
        ((getFloat0_cons_ne d "airtime_spend_m1" "airtime_spend_m2" _ (by decide)).trans h2)
        ((getFloat0_cons_ne d "airtime_spend_m1" "airtime_spend_m3" _ (by decide)).trans h3)
        (getFloat0_cons_self d _ q')
        ((getFloat0_cons_ne d "airtime_spend_m1" "airtime_spend_m2" _ (by decide)).trans h2)
        ((getFloat0_cons_ne d "airtime_spend_m1" "airtime_spend_m3" _ (by decide)).trans h3)
        s hs
  · intro s hs
    cases h1 : getFloat0 d "airtime_spend_m1" with
    | none =>
      rw [air_score_body] at hs
      simp only [getFloat0_cons_ne d "airtime_spend_m2" "airtime_spend_m1" (PyVal.vNum q)
          (by decide), h1, Option.bind_eq_bind, Option.some_bind, Option.none_bind] at hs
      exact absurd hs (by simp)
    | some m1 =>
    cases h3 : getFloat0 d "airtime_spend_m3" with
    | none =>
      rw [air_score_body] at hs
      simp only [getFloat0_cons_self,
        getFloat0_cons_ne d "airtime_spend_m2" "airtime_spend_m1" (PyVal.vNum q)
          (by decide),
        getFloat0_cons_ne d "airtime_spend_m2" "airtime_spend_m3" (PyVal.vNum q)
          (by decide), h1, h3, Option.bind_eq_bind, Option.some_bind,
        Option.none_bind] at hs
      exact absurd hs (by simp)
    | some m3 =>
      exact air_body_mono _ _ m1 q m3 m1 q' m3 (le_refl _) hq (le_refl _)
        ((getFloat0_cons_ne d "airtime_spend_m2" "airtime_spend_m1" _ (by decide)).trans h1)
        (getFloat0_cons_self d _ q)
        ((getFloat0_cons_ne d "airtime_spend_m2" "airtime_spend_m3" _ (by decide)).trans h3)
        ((getFloat0_cons_ne d "airtime_spend_m2" "airtime_spend_m1" _ (by decide)).trans h1)
        (getFloat0_cons_self d _ q')
        ((getFloat0_cons_ne d "airtime_spend_m2" "airtime_spend_m3" _ (by decide)).trans h3)
        s hs
  · intro s hs
    cases h1 : getFloat0 d "airtime_spend_m1" with
    | none =>
      rw [air_score_body] at hs
      simp only [getFloat0_cons_ne d "airtime_spend_m3" "airtime_spend_m1" (PyVal.vNum q)
          (by decide), h1, Option.bind_eq_bind, Option.some_bind, Option.none_bind] at hs
      exact absurd hs (by simp)
    | some m1 =>
    cases h2 : getFloat0 d "airtime_spend_m2" with
    | none =>
      rw [air_score_body] at hs
      simp only [getFloat0_cons_ne d "airtime_spend_m3" "airtime_spend_m1" (PyVal.vNum q)
          (by decide),
        getFloat0_cons_ne d "airtime_spend_m3" "airtime_spend_m2" (PyVal.vNum q)
          (by decide), h1, h2, Option.bind_eq_bind, Option.some_bind,
        Option.none_bind] at hs
      exact absurd hs (by simp)
    | some m2 =>
      exact air_body_mono _ _ m1 m2 q m1 m2 q' (le_refl _) (le_refl _) hq
        ((getFloat0_cons_ne d "airtime_spend_m3" "airtime_spend_m1" _ (by decide)).trans h1)
        ((getFloat0_cons_ne d "airtime_spend_m3" "airtime_spend_m2" _ (by decide)).trans h2)
        (getFloat0_cons_self d _ q)
        ((getFloat0_cons_ne d "airtime_spend_m3" "airtime_spend_m1" _ (by decide)).trans h1)
        ((getFloat0_cons_ne d "airtime_spend_m3" "airtime_spend_m2" _ (by decide)).trans h2)
        (getFloat0_cons_self d _ q')
        s hs


lemma p2p_set_mono (d : Record) (q q' : ℚ) (hq : q ≤ q') (k : String)
    (hk : k = "num_unique_verified_p2p" ∨ k = "p2p_total_value") :
    ∀ s, p2p_score_body ((k, PyVal.vNum q) :: d) = some s →
      ∃ t, p2p_score_body ((k, PyVal.vNum q') :: d) = some t ∧ s ≤ t := by
  rcases hk with rfl | rfl
  · intro s hs
    cases h2 : getFloat0 d "p2p_total_value" with
    | none =>
      rw [p2p_score_body] at hs
      simp only [getInt0_cons_self,
        getFloat0_cons_ne d "num_unique_verified_p2p" "p2p_total_value" (PyVal.vNum q)
          (by decide), h2, Option.bind_eq_bind, Option.some_bind, Option.none_bind] at hs
      exact absurd hs (by simp)
    | some v =>
      exact p2p_body_mono _ _ (ratTrunc q) (ratTrunc q') v v (ratTrunc_mono q q' hq)
        (le_refl _)
        (getInt0_cons_self d _ q)
        ((getFloat0_cons_ne d "num_unique_verified_p2p" "p2p_total_value" _
          (by decide)).trans h2)
        ((get0_cons_ne d "num_unique_verified_p2p" "p2p_consistent_across_months" _
          (by decide)).trans
          (get0_cons_ne d "num_unique_verified_p2p" "p2p_consistent_across_months" _
            (by decide)).symm)
        (getInt0_cons_self d _ q')
        ((getFloat0_cons_ne d "num_unique_verified_p2p" "p2p_total_value" _
          (by decide)).trans h2)
        s hs
  · intro s hs
    cases h1 : getInt0 d "num_unique_verified_p2p" with
    | none =>
      rw [p2p_score_body] at hs
      simp only [getInt0_cons_ne d "p2p_total_value" "num_unique_verified_p2p"
          (PyVal.vNum q) (by decide), h1, Option.bind_eq_bind, Option.some_bind,
        Option.none_bind] at hs
      exact absurd hs (by simp)
    | some a =>
      exact p2p_body_mono _ _ a a q q' (le_refl _) hq
        ((getInt0_cons_ne d "p2p_total_value" "num_unique_verified_p2p" _
          (by decide)).trans h1)
        (getFloat0_cons_self d _ q)
        ((get0_cons_ne d "p2p_total_value" "p2p_consistent_across_months" _
          (by decide)).trans
          (get0_cons_ne d "p2p_total_value" "p2p_consistent_across_months" _
            (by decide)).symm)
        ((getInt0_cons_ne d "p2p_total_value" "num_unique_verified_p2p" _
          (by decide)).trans h1)
        (getFloat0_cons_self d _ q')
        s hs

lemma bank_set_mono (d : Record) (q q' : ℚ) (hq : q ≤ q') (k : String)
    (hk : k = "consistent_deposits_months" ∨ k = "avg_monthly_balance") :
    ∀ s, bank_score_body ((k, PyVal.vNum q) :: d) = some s →
      ∃ t, bank_score_body ((k, PyVal.vNum q') :: d) = some t ∧ s ≤ t := by
  rcases hk with rfl | rfl
  · intro s hs
    cases h2 : getFloat0 d "avg_monthly_balance" with
    | none =>
      rw [bank_score_body] at hs
      simp only [getInt0_cons_self,
        getFloat0_cons_ne d "consistent_deposits_months" "avg_monthly_balance"
          (PyVal.vNum q) (by decide), h2, Option.bind_eq_bind, Option.some_bind,
        Option.none_bind] at hs
      exact absurd hs (by simp)
    | some v =>
      exact bank_body_mono _ _ (ratTrunc q) (ratTrunc q') v v (ratTrunc_mono q q' hq)
        (le_refl _)
        (getInt0_cons_self d _ q)
        ((getFloat0_cons_ne d "consistent_deposits_months" "avg_monthly_balance" _
          (by decide)).trans h2)
        ((get0_cons_ne d "consistent_deposits_months" "no_negative_flags" _
          (by decide)).trans
          (get0_cons_ne d "consistent_deposits_months" "no_negative_flags" _
            (by decide)).symm)
        (getInt0_cons_self d _ q')
        ((getFloat0_cons_ne d "consistent_deposits_months" "avg_monthly_balance" _
          (by decide)).trans h2)
        s hs
  · intro s hs
    cases h1 : getInt0 d "consistent_deposits_months" with
    | none =>
      rw [bank_score_body] at hs
      simp only [getInt0_cons_ne d "avg_monthly_balance" "consistent_deposits_months"
          (PyVal.vNum q) (by decide), h1, Option.bind_eq_bind, Option.some_bind,
        Option.none_bind] at hs
      exact absurd hs (by simp)
    | some a =>
      exact bank_body_mono _ _ a a q q' (le_refl _) hq
        ((getInt0_cons_ne d "avg_monthly_balance" "consistent_deposits_months" _
          (by decide)).trans h1)
        (getFloat0_cons_self d _ q)
        ((get0_cons_ne d "avg_monthly_balance" "no_negative_flags" _
          (by decide)).trans
          (get0_cons_ne d "avg_monthly_balance" "no_negative_flags" _
            (by decide)).symm)
        ((getInt0_cons_ne d "avg_monthly_balance" "consistent_deposits_months" _
          (by decide)).trans h1)
        (getFloat0_cons_self d _ q')
        s hs


/-- C7: writing a larger numeric value into any single numeric
contribution field (the three airtime spends, the p2p counterparty count and
total value, the deposit-month count and average balance), with every other
field held constant, never decreases the total scaled score, and never
decreases the airtime sub-score. -/
theorem C7_monotonicity (d : Record) (k : String) (q q' : ℚ) (hq : q ≤ q')
    (hk : k = "airtime_spend_m1" ∨ k = "airtime_spend_m2" ∨ k = "airtime_spend_m3" ∨
      k = "num_unique_verified_p2p" ∨ k = "p2p_total_value" ∨
      k = "consistent_deposits_months" ∨ k = "avg_monthly_balance")
    (r : ScoreReport) (hr : calculate_tidescore ((k, PyVal.vNum q) :: d) = some r) :
    ∃ r', calculate_tidescore ((k, PyVal.vNum q') :: d) = some r' ∧
      r.scaled_score ≤ r'.scaled_score ∧ r.airtime ≤ r'.airtime := by
  rcases hk with rfl | rfl | rfl | rfl | rfl | rfl | rfl
  · have hEq : ∀ key2 : String, ¬ ("airtime_spend_m1" : String) = key2 →
        Record.get? (("airtime_spend_m1", PyVal.vNum q) :: d) key2 =
        Record.get? (("airtime_spend_m1", PyVal.vNum q') :: d) key2 := fun key2 hne => by
      rw [get?_cons_ne _ _ _ _ hne, get?_cons_ne _ _ _ _ hne]
    exact tidescore_mono _ _
      (personal_congr _ _ (hEq _ (by decide)) (hEq _ (by decide)) (hEq _ (by decide))
        (hEq _ (by decide)))
      (bill_congr _ _ (hEq _ (by decide)) (hEq _ (by decide)) (hEq _ (by decide))
        (hEq _ (by decide)) (hEq _ (by decide)) (hEq _ (by decide)))
      (guarantor_congr _ _ (hEq _ (by decide)) (hEq _ (by decide)) (hEq _ (by decide))
        (hEq _ (by decide)))
      (penalties_congr _ _ (hEq _ (by decide)) (hEq _ (by decide)) (hEq _ (by decide))
        (hEq _ (by decide)) (hEq _ (by decide)) (hEq _ (by decide)))
      (calculate_air_mono _ _
        ((subGate_cons_ne d "airtime_spend_m1" "airtime_status" (PyVal.vNum q) (by decide)).trans
          (subGate_cons_ne d "airtime_spend_m1" "airtime_status" (PyVal.vNum q') (by decide)).symm)
        (air_set_mono d q q' hq "airtime_spend_m1" (by tauto)))
      (mono_of_eq (p2p_congr _ _ (hEq _ (by decide)) (hEq _ (by decide))
        (hEq _ (by decide)) (hEq _ (by decide))))
      (mono_of_eq (bank_congr _ _ (hEq _ (by decide)) (hEq _ (by decide))
        (hEq _ (by decide)) (hEq _ (by decide))))
      r hr

  · have hEq : ∀ key2 : String, ¬ ("airtime_spend_m2" : String) = key2 →
        Record.get? (("airtime_spend_m2", PyVal.vNum q) :: d) key2 =
        Record.get? (("airtime_spend_m2", PyVal.vNum q') :: d) key2 := fun key2 hne => by
      rw [get?_cons_ne _ _ _ _ hne, get?_cons_ne _ _ _ _ hne]
    exact tidescore_mono _ _
      (personal_congr _ _ (hEq _ (by decide)) (hEq _ (by decide)) (hEq _ (by decide))
        (hEq _ (by decide)))
      (bill_congr _ _ (hEq _ (by decide)) (hEq _ (by decide)) (hEq _ (by decide))
        (hEq _ (by decide)) (hEq _ (by decide)) (hEq _ (by decide)))
      (guarantor_congr _ _ (hEq _ (by decide)) (hEq _ (by decide)) (hEq _ (by decide))
        (hEq _ (by decide)))
      (penalties_congr _ _ (hEq _ (by decide)) (hEq _ (by decide)) (hEq _ (by decide))
        (hEq _ (by decide)) (hEq _ (by decide)) (hEq _ (by decide)))
      (calculate_air_mono _ _
        ((subGate_cons_ne d "airtime_spend_m2" "airtime_status" (PyVal.vNum q) (by decide)).trans
          (subGate_cons_ne d "airtime_spend_m2" "airtime_status" (PyVal.vNum q') (by decide)).symm)
        (air_set_mono d q q' hq "airtime_spend_m2" (by tauto)))
      (mono_of_eq (p2p_congr _ _ (hEq _ (by decide)) (hEq _ (by decide))
        (hEq _ (by decide)) (hEq _ (by decide))))
      (mono_of_eq (bank_congr _ _ (hEq _ (by decide)) (hEq _ (by decide))
        (hEq _ (by decide)) (hEq _ (by decide))))
      r hr

  · have hEq : ∀ key2 : String, ¬ ("airtime_spend_m3" : String) = key2 →
        Record.get? (("airtime_spend_m3", PyVal.vNum q) :: d) key2 =
        Record.get? (("airtime_spend_m3", PyVal.vNum q') :: d) key2 := fun key2 hne => by
      rw [get?_cons_ne _ _ _ _ hne, get?_cons_ne _ _ _ _ hne]
    exact tidescore_mono _ _
      (personal_congr _ _ (hEq _ (by decide)) (hEq _ (by decide)) (hEq _ (by decide))
        (hEq _ (by decide)))
      (bill_congr _ _ (hEq _ (by decide)) (hEq _ (by decide)) (hEq _ (by decide))
        (hEq _ (by decide)) (hEq _ (by decide)) (hEq _ (by decide)))
      (guarantor_congr _ _ (hEq _ (by decide)) (hEq _ (by decide)) (hEq _ (by decide))
        (hEq _ (by decide)))
      (penalties_congr _ _ (hEq _ (by decide)) (hEq _ (by decide)) (hEq _ (by decide))
        (hEq _ (by decide)) (hEq _ (by decide)) (hEq _ (by decide)))
      (calculate_air_mono _ _
        ((subGate_cons_ne d "airtime_spend_m3" "airtime_status" (PyVal.vNum q) (by decide)).trans
          (subGate_cons_ne d "airtime_spend_m3" "airtime_status" (PyVal.vNum q') (by decide)).symm)
        (air_set_mono d q q' hq "airtime_spend_m3" (by tauto)))
      (mono_of_eq (p2p_congr _ _ (hEq _ (by decide)) (hEq _ (by decide))
        (hEq _ (by decide)) (hEq _ (by decide))))
      (mono_of_eq (bank_congr _ _ (hEq _ (by decide)) (hEq _ (by decide))
        (hEq _ (by decide)) (hEq _ (by decide))))
      r hr

  · have hEq : ∀ key2 : String, ¬ ("num_unique_verified_p2p" : String) = key2 →
        Record.get? (("num_unique_verified_p2p", PyVal.vNum q) :: d) key2 =
        Record.get? (("num_unique_verified_p2p", PyVal.vNum q') :: d) key2 := fun key2 hne => by
      rw [get?_cons_ne _ _ _ _ hne, get?_cons_ne _ _ _ _ hne]
    exact tidescore_mono _ _
      (personal_congr _ _ (hEq _ (by decide)) (hEq _ (by decide)) (hEq _ (by decide))
        (hEq _ (by decide)))
      (bill_congr _ _ (hEq _ (by decide)) (hEq _ (by decide)) (hEq _ (by decide))
        (hEq _ (by decide)) (hEq _ (by decide)) (hEq _ (by decide)))
      (guarantor_congr _ _ (hEq _ (by decide)) (hEq _ (by decide)) (hEq _ (by decide))
        (hEq _ (by decide)))
      (penalties_congr _ _ (hEq _ (by decide)) (hEq _ (by decide)) (hEq _ (by decide))
        (hEq _ (by decide)) (hEq _ (by decide)) (hEq _ (by decide)))
      (mono_of_eq (air_congr _ _ (hEq _ (by decide)) (hEq _ (by decide))
        (hEq _ (by decide)) (hEq _ (by decide))))
      (calculate_p2p_mono _ _
        ((subGate_cons_ne d "num_unique_verified_p2p" "p2p_status" (PyVal.vNum q) (by decide)).trans
          (subGate_cons_ne d "num_unique_verified_p2p" "p2p_status" (PyVal.vNum q') (by decide)).symm)
        (p2p_set_mono d q q' hq "num_unique_verified_p2p" (by tauto)))
      (mono_of_eq (bank_congr _ _ (hEq _ (by decide)) (hEq _ (by decide))
        (hEq _ (by decide)) (hEq _ (by decide))))
      r hr

  · have hEq : ∀ key2 : String, ¬ ("p2p_total_value" : String) = key2 →
        Record.get? (("p2p_total_value", PyVal.vNum q) :: d) key2 =
        Record.get? (("p2p_total_value", PyVal.vNum q') :: d) key2 := fun key2 hne => by
      rw [get?_cons_ne _ _ _ _ hne, get?_cons_ne _ _ _ _ hne]
    exact tidescore_mono _ _
      (personal_congr _ _ (hEq _ (by decide)) (hEq _ (by decide)) (hEq _ (by decide))
        (hEq _ (by decide)))
      (bill_congr _ _ (hEq _ (by decide)) (hEq _ (by decide)) (hEq _ (by decide))
        (hEq _ (by decide)) (hEq _ (by decide)) (hEq _ (by decide)))
      (guarantor_congr _ _ (hEq _ (by decide)) (hEq _ (by decide)) (hEq _ (by decide))
        (hEq _ (by decide)))
      (penalties_congr _ _ (hEq _ (by decide)) (hEq _ (by decide)) (hEq _ (by decide))
        (hEq _ (by decide)) (hEq _ (by decide)) (hEq _ (by decide)))
      (mono_of_eq (air_congr _ _ (hEq _ (by decide)) (hEq _ (by decide))
        (hEq _ (by decide)) (hEq _ (by decide))))
      (calculate_p2p_mono _ _
        ((subGate_cons_ne d "p2p_total_value" "p2p_status" (PyVal.vNum q) (by decide)).trans
          (subGate_cons_ne d "p2p_total_value" "p2p_status" (PyVal.vNum q') (by decide)).symm)
        (p2p_set_mono d q q' hq "p2p_total_value" (by tauto)))
      (mono_of_eq (bank_congr _ _ (hEq _ (by decide)) (hEq _ (by decide))
        (hEq _ (by decide)) (hEq _ (by decide))))
      r hr

  · have hEq : ∀ key2 : String, ¬ ("consistent_deposits_months" : String) = key2 →
        Record.get? (("consistent_deposits_months", PyVal.vNum q) :: d) key2 =
        Record.get? (("consistent_deposits_months", PyVal.vNum q') :: d) key2 := fun key2 hne => by
      rw [get?_cons_ne _ _ _ _ hne, get?_cons_ne _ _ _ _ hne]
    exact tidescore_mono _ _
      (personal_congr _ _ (hEq _ (by decide)) (hEq _ (by decide)) (hEq _ (by decide))
        (hEq _ (by decide)))
      (bill_congr _ _ (hEq _ (by decide)) (hEq _ (by decide)) (hEq _ (by decide))
        (hEq _ (by decide)) (hEq _ (by decide)) (hEq _ (by decide)))
      (guarantor_congr _ _ (hEq _ (by decide)) (hEq _ (by decide)) (hEq _ (by decide))
        (hEq _ (by decide)))
      (penalties_congr _ _ (hEq _ (by decide)) (hEq _ (by decide)) (hEq _ (by decide))
        (hEq _ (by decide)) (hEq _ (by decide)) (hEq _ (by decide)))
      (mono_of_eq (air_congr _ _ (hEq _ (by decide)) (hEq _ (by decide))
        (hEq _ (by decide)) (hEq _ (by decide))))
      (mono_of_eq (p2p_congr _ _ (hEq _ (by decide)) (hEq _ (by decide))
        (hEq _ (by decide)) (hEq _ (by decide))))
      (calculate_bank_mono _ _
        ((subGate_cons_ne d "consistent_deposits_months" "bank_status" (PyVal.vNum q) (by decide)).trans
          (subGate_cons_ne d "consistent_deposits_months" "bank_status" (PyVal.vNum q') (by decide)).symm)
        (bank_set_mono d q q' hq "consistent_deposits_months" (by tauto)))
      r hr

  · have hEq : ∀ key2 : String, ¬ ("avg_monthly_balance" : String) = key2 →
        Record.get? (("avg_monthly_balance", PyVal.vNum q) :: d) key2 =
        Record.get? (("avg_monthly_balance", PyVal.vNum q') :: d) key2 := fun key2 hne => by
      rw [get?_cons_ne _ _ _ _ hne, get?_cons_ne _ _ _ _ hne]
    exact tidescore_mono _ _
      (personal_congr _ _ (hEq _ (by decide)) (hEq _ (by decide)) (hEq _ (by decide))
        (hEq _ (by decide)))
      (bill_congr _ _ (hEq _ (by decide)) (hEq _ (by decide)) (hEq _ (by decide))
        (hEq _ (by decide)) (hEq _ (by decide)) (hEq _ (by decide)))
      (guarantor_congr _ _ (hEq _ (by decide)) (hEq _ (by decide)) (hEq _ (by decide))
        (hEq _ (by decide)))
      (penalties_congr _ _ (hEq _ (by decide)) (hEq _ (by decide)) (hEq _ (by decide))
        (hEq _ (by decide)) (hEq _ (by decide)) (hEq _ (by decide)))
      (mono_of_eq (air_congr _ _ (hEq _ (by decide)) (hEq _ (by decide))
        (hEq _ (by decide)) (hEq _ (by decide))))
      (mono_of_eq (p2p_congr _ _ (hEq _ (by decide)) (hEq _ (by decide))
        (hEq _ (by decide)) (hEq _ (by decide))))
      (calculate_bank_mono _ _
        ((subGate_cons_ne d "avg_monthly_balance" "bank_status" (PyVal.vNum q) (by decide)).trans
          (subGate_cons_ne d "avg_monthly_balance" "bank_status" (PyVal.vNum q') (by decide)).symm)
        (bank_set_mono d q q' hq "avg_monthly_balance" (by tauto)))
      r hr


/-- The airtime-verified record with a 4000 spend in month 1, evaluated. -/
lemma spend4000_eval :
    calculate_tidescore (("airtime_spend_m1", PyVal.vNum 4000) ::
        [("airtime_status", PyVal.vStr "Verified")]) =
      some ⟨0, "Very High", 0, 20, 0, 0, 0, 0, -90, 0, 20⟩ := by
  have hair : calculate_air_score (("airtime_spend_m1", PyVal.vNum 4000) ::
      [("airtime_status", PyVal.vStr "Verified")]) = some 20 := by
    simp only [calculate_air_score, air_score_body, subGate, Record.get0, Record.getD,
      Record.get?, getFloat0, pyFloat, pyOr, pyTruthy, isGatedStatus, pyEq,
      String.reduceEq, String.reduceBEq, reduceIte, Option.getD_some, Option.getD_none,
      Bool.or_self, Bool.false_eq_true, if_false, if_true]
    norm_num
  have hp2p : calculate_p2p_score (("airtime_spend_m1", PyVal.vNum 4000) ::
      [("airtime_status", PyVal.vStr "Verified")]) = some 0 := by decide
  have hbank : calculate_bank_score (("airtime_spend_m1", PyVal.vNum 4000) ::
      [("airtime_status", PyVal.vStr "Verified")]) = some 0 := by decide
  have hper : calculate_personal_score (("airtime_spend_m1", PyVal.vNum 4000) ::
      [("airtime_status", PyVal.vStr "Verified")]) = 0 := by decide
  have hbill : calculate_bill_score (("airtime_spend_m1", PyVal.vNum 4000) ::
      [("airtime_status", PyVal.vStr "Verified")]) = 0 := by decide
  have hguar : calculate_guarantor_score (("airtime_spend_m1", PyVal.vNum 4000) ::
      [("airtime_status", PyVal.vStr "Verified")]) = 0 := by decide
  have hpen : calculate_penalties (("airtime_spend_m1", PyVal.vNum 4000) ::
      [("airtime_status", PyVal.vStr "Verified")]) = -90 := by decide
  have hmax : ((0 : ℚ) ⊔ (20 + -90)) = 0 := by
    rw [show ((20:ℚ) + -90) = -70 by norm_num]
    exact max_eq_left (by norm_num)
  simp [calculate_tidescore, hair, hp2p, hbank, hper, hbill, hguar, hpen, hmax,
    risk_level_of, pyRound, max_possible_raw_score]

theorem C7_monotonicity_witness :
    ∃ r', calculate_tidescore (("airtime_spend_m1", PyVal.vNum 6000) ::
        [("airtime_status", PyVal.vStr "Verified")]) = some r' ∧
      (⟨0, "Very High", 0, 20, 0, 0, 0, 0, -90, 0, 20⟩ : ScoreReport).scaled_score ≤
        r'.scaled_score ∧
      (⟨0, "Very High", 0, 20, 0, 0, 0, 0, -90, 0, 20⟩ : ScoreReport).airtime ≤
        r'.airtime :=
  C7_monotonicity [("airtime_status", PyVal.vStr "Verified")] "airtime_spend_m1"
    4000 6000 (by norm_num) (Or.inl rfl) _ spend4000_eval

end TideScore
